import Mathlib

/-!
RM68120 display-controller driver: initialisation, rotation, addressing window, drawing.

Shallow embedding of `components/display/screen/controller_driver/rm68120/rm68120.c`.

* The global `g_lcd_handle` is passed explicitly (`scr_handle_t` in, `scr_handle_t` out).
* Every call made through an interface macro (`LCD_WRITE_REG_16B`, `LCD_WRITE_CMD_16B`,
  `LCD_WRITE`, `LCD_IFACE_ACQUIRE`, `LCD_IFACE_RELEASE`) is recorded, in order, as a
  `TransportOp`; the `esp_err_t` it returns is supplied by an oracle `env : Nat → esp_err_t`,
  where `env k` is the result of the `k`-th transport call (counted from 0) of the driver
  call under consideration.
* `uint16_t` / `uint32_t` values are natural numbers, reduced modulo `2^16` / `2^32` where
  the C code truncates; `esp_err_t` is a (signed) integer.
* Pointers that may be null are `Option` values. `lcd_rm68120_init` additionally records its
  GPIO calls; where it reads through a null pointer its result is `none`.
-/

namespace RM68120

/-! ## Error codes and constants -/

/-- The C type `esp_err_t` is a signed 32-bit integer. -/
abbrev esp_err_t := Int

def ESP_OK : esp_err_t := 0
def ESP_FAIL : esp_err_t := -1
def ESP_ERR_INVALID_ARG : esp_err_t := 0x102

def RM68120_RESOLUTION_HOR : Nat := 480
def RM68120_RESOLUTION_VER : Nat := 800

def RM68120_CASET : Nat := 0x2A00
def RM68120_RASET : Nat := 0x2B00
def RM68120_RAMWR : Nat := 0x2C00
def RM68120_MADCTL : Nat := 0x3600

def MADCTL_MY : Nat := 0x80
def MADCTL_MX : Nat := 0x40
def MADCTL_MV : Nat := 0x20
def MADCTL_ML : Nat := 0x10
def MADCTL_RGB : Nat := 0x08
def MADCTL_MH : Nat := 0x04

/-- Modelled from the spec: `screen_driver.h`, which declares `scr_dir_t`, is not among the
sources. The eight directions of the 8-way enum are numbered 0..7 (`SCR_DIR_LRTB` = 0,
`SCR_DIR_LRBT` = 1, `SCR_DIR_RLTB` = 2, `SCR_DIR_RLBT` = 3, `SCR_DIR_TBLR` = 4,
`SCR_DIR_BTLR` = 5, `SCR_DIR_TBRL` = 6, `SCR_DIR_BTRL` = 7). The specification treats every
value above this canonical set, that is every raw value of 8 or more, as the bit-shifted
encoding; with the guard `SCR_DIR_MAX < dir` of the source this is the value 7. Only the
treatment of the raw value 8 depends on it. -/
def SCR_DIR_MAX : Nat := 7

/-! ## Data model -/

/-- Memory handed to the raw write primitive: either the two-byte scratch array of
`lcd_rm68120_write_ram_data` or the caller's `uint16_t` pixel buffer (cast to `uint8_t *`). -/
inductive Buffer where
  | bytes (data : List Nat)
  | pixels (bitmap : List Nat)
  deriving DecidableEq, Repr

/-- One call through the transaction interface of the display handle. -/
inductive TransportOp where
  /-- The call `LCD_WRITE_CMD_16B(cmd)`. -/
  | write_cmd_16b (cmd : Nat)
  /-- The call `LCD_WRITE_REG_16B(reg, data)`. -/
  | write_reg_16b (reg data : Nat)
  /-- The call `LCD_WRITE(data, length)`. -/
  | write (data : Buffer) (length : Nat)
  /-- The call `LCD_IFACE_ACQUIRE()`. -/
  | bus_acquire
  /-- The call `LCD_IFACE_RELEASE()`. -/
  | bus_release
  deriving DecidableEq, Repr

/-- The data fields of `scr_handle_t` (the type of `g_lcd_handle`). The `interface_drv`
pointer is represented by the oracle that answers the transport calls. -/
structure scr_handle_t where
  original_width : Nat
  original_height : Nat
  width : Nat
  height : Nat
  offset_hor : Nat
  offset_ver : Nat
  dir : Nat
  deriving DecidableEq, Repr

/-- What a driver entry point leaves behind: its return value, the display handle after the
call, and the transport calls it issued, in order. -/
structure Outcome where
  ret : esp_err_t
  handle : scr_handle_t
  trace : List TransportOp
  deriving DecidableEq, Repr

/-- The four window coordinates passed by pointer to `scr_utility_apply_offset`. -/
structure Window where
  x0 : Nat
  y0 : Nat
  x1 : Nat
  y1 : Nat
  deriving DecidableEq, Repr

/-- Type of `scr_utility_apply_offset` (defined in `screen_utility.c`, which is not among the
sources): from the handle, the two panel resolutions and the window it computes the window
in native panel coordinates. It is a parameter of the driver functions that call it. -/
abbrev OffsetUtility := scr_handle_t → Nat → Nat → Window → Window

/-- The call `scr_utility_apply_offset(&g_lcd_handle, res_hor, res_ver, &x0, &y0, &x1, &y1)`:
the utility `off` is applied and its results are what the four `uint16_t` variables hold
afterwards, hence taken modulo `2^16`. -/
def scr_utility_apply_offset (off : OffsetUtility) (g : scr_handle_t) (res_hor res_ver : Nat)
    (win : Window) : Window :=
  let r := off g res_hor res_ver win
  ⟨r.x0 % 65536, r.y0 % 65536, r.x1 % 65536, r.y1 % 65536⟩

/-- Conversion of a C `int` to `uint16_t`. -/
def to_uint16 (i : Int) : Nat := (i % 65536).toNat

/-! ## Interface macros -/

/-- The macro `LCD_WRITE_REG_16B(reg, data)`: appends the call to the trace and returns the
result the oracle gives for it. -/
def LCD_WRITE_REG_16B (env : Nat → esp_err_t) (tr : List TransportOp) (reg data : Nat) :
    esp_err_t × List TransportOp :=
  (env tr.length, tr ++ [TransportOp.write_reg_16b reg data])

/-- The macro `LCD_WRITE_CMD_16B(cmd)`. -/
def LCD_WRITE_CMD_16B (env : Nat → esp_err_t) (tr : List TransportOp) (cmd : Nat) :
    esp_err_t × List TransportOp :=
  (env tr.length, tr ++ [TransportOp.write_cmd_16b cmd])

/-- The macro `LCD_WRITE(data, length)`. -/
def LCD_WRITE (env : Nat → esp_err_t) (tr : List TransportOp) (data : Buffer) (length : Nat) :
    esp_err_t × List TransportOp :=
  (env tr.length, tr ++ [TransportOp.write data length])

/-- The macro `LCD_IFACE_ACQUIRE()`; the driver ignores its result. -/
def LCD_IFACE_ACQUIRE (tr : List TransportOp) : List TransportOp :=
  tr ++ [TransportOp.bus_acquire]

/-- The macro `LCD_IFACE_RELEASE()`; the driver ignores its result. -/
def LCD_IFACE_RELEASE (tr : List TransportOp) : List TransportOp :=
  tr ++ [TransportOp.bus_release]

/-! ## Driver entry points -/

/-- The function `lcd_rm68120_set_rotation(dir)`. -/
def lcd_rm68120_set_rotation (env : Nat → esp_err_t) (dir : Nat) (g : scr_handle_t) :
    Outcome :=
  let reg_data : Nat := 0
  -- reg_data &= ~MADCTL_RGB  (result stored in a uint8_t)
  let reg_data := (reg_data &&& (0xFFFFFFFF ^^^ MADCTL_RGB)) % 256
  let dir := if SCR_DIR_MAX < dir then dir >>> 5 else dir
  if ¬ dir < 8 then ⟨ESP_ERR_INVALID_ARG, g, []⟩ else
  let sw : Nat × scr_handle_t :=
    match dir with
    | 0 => (reg_data,
            { g with width := g.original_width, height := g.original_height })
    | 1 => (reg_data ||| MADCTL_MY,
            { g with width := g.original_width, height := g.original_height })
    | 2 => (reg_data ||| MADCTL_MX,
            { g with width := g.original_width, height := g.original_height })
    | 3 => (reg_data ||| (MADCTL_MX ||| MADCTL_MY),
            { g with width := g.original_width, height := g.original_height })
    | 4 => (reg_data ||| MADCTL_MV,
            { g with width := g.original_height, height := g.original_width })
    | 5 => (reg_data ||| (MADCTL_MY ||| MADCTL_MV),
            { g with width := g.original_height, height := g.original_width })
    | 6 => (reg_data ||| (MADCTL_MX ||| MADCTL_MV),
            { g with width := g.original_height, height := g.original_width })
    | 7 => (reg_data ||| (MADCTL_MX ||| MADCTL_MY ||| MADCTL_MV),
            { g with width := g.original_height, height := g.original_width })
    | _ => (reg_data, g)
  let reg_data := sw.1
  let g := sw.2
  let wr := LCD_WRITE_REG_16B env [] RM68120_MADCTL reg_data
  if ¬ ESP_OK = wr.1 then ⟨ESP_FAIL, g, wr.2⟩ else
  ⟨ESP_OK, { g with dir := dir }, wr.2⟩

/-- The function `lcd_rm68120_set_window(x0, y0, x1, y1)`. -/
def lcd_rm68120_set_window (off : OffsetUtility) (env : Nat → esp_err_t)
    (x0 y0 x1 y1 : Nat) (g : scr_handle_t) : Outcome :=
  if ¬ (x1 < g.width ∧ y1 < g.height) then ⟨ESP_ERR_INVALID_ARG, g, []⟩ else
  if ¬ (x0 ≤ x1 ∧ y0 ≤ y1) then ⟨ESP_ERR_INVALID_ARG, g, []⟩ else
  let ret : esp_err_t := ESP_OK
  let win := scr_utility_apply_offset off g RM68120_RESOLUTION_HOR RM68120_RESOLUTION_VER
    ⟨x0, y0, x1, y1⟩
  let x0 := win.x0
  let y0 := win.y0
  let x1 := win.x1
  let y1 := win.y1
  let c := LCD_WRITE_REG_16B env [] RM68120_CASET (x0 >>> 8)
  let ret := Int.lor ret c.1
  let c := LCD_WRITE_REG_16B env c.2 (RM68120_CASET + 1) (x0 &&& 0xff)
  let ret := Int.lor ret c.1
  let c := LCD_WRITE_REG_16B env c.2 (RM68120_CASET + 2) (x1 >>> 8)
  let ret := Int.lor ret c.1
  let c := LCD_WRITE_REG_16B env c.2 (RM68120_CASET + 3) (x1 &&& 0xff)
  let ret := Int.lor ret c.1
  let c := LCD_WRITE_REG_16B env c.2 RM68120_RASET (y0 >>> 8)
  let ret := Int.lor ret c.1
  let c := LCD_WRITE_REG_16B env c.2 (RM68120_RASET + 1) (y0 &&& 0xff)
  let ret := Int.lor ret c.1
  let c := LCD_WRITE_REG_16B env c.2 (RM68120_RASET + 2) (y1 >>> 8)
  let ret := Int.lor ret c.1
  let c := LCD_WRITE_REG_16B env c.2 (RM68120_RASET + 3) (y1 &&& 0xff)
  let ret := Int.lor ret c.1
  let c := LCD_WRITE_CMD_16B env c.2 RM68120_RAMWR
  let ret := Int.lor ret c.1
  if ¬ ESP_OK = ret then ⟨ESP_FAIL, g, c.2⟩ else
  ⟨ESP_OK, g, c.2⟩

/-- The function `lcd_rm68120_write_ram_data(color)`; `tr` is the trace of the transport
calls made before it within the same driver call. -/
def lcd_rm68120_write_ram_data (env : Nat → esp_err_t) (tr : List TransportOp) (color : Nat) :
    esp_err_t × List TransportOp :=
  let data0 := (color &&& 0xff) % 256
  let data1 := (color >>> 8) % 256
  LCD_WRITE env tr (Buffer.bytes [data0, data1]) 2

/-- The function `lcd_rm68120_draw_pixel(x, y, color)`. -/
def lcd_rm68120_draw_pixel (off : OffsetUtility) (env : Nat → esp_err_t)
    (x y color : Nat) (g : scr_handle_t) : Outcome :=
  let sw := lcd_rm68120_set_window off env x y x y g
  if ¬ ESP_OK = sw.ret then ⟨ESP_FAIL, sw.handle, sw.trace⟩ else
  let wr := lcd_rm68120_write_ram_data env sw.trace color
  ⟨wr.1, sw.handle, wr.2⟩

/-- The function `lcd_rm68120_draw_bitmap(x, y, w, h, bitmap)`; `none` is the null pointer.
The transport calls of the nested `lcd_rm68120_set_window` follow the bus acquisition, so the
oracle it sees is shifted by one call. `x + w - 1` and `y + h - 1` are computed in `int` and
converted to the `uint16_t` parameters; `w * h` is stored in a `uint32_t` and doubled there. -/
def lcd_rm68120_draw_bitmap (off : OffsetUtility) (env : Nat → esp_err_t)
    (x y w h : Nat) (bitmap : Option (List Nat)) (g : scr_handle_t) : Outcome :=
  match bitmap with
  | none => ⟨ESP_ERR_INVALID_ARG, g, []⟩
  | some buf =>
    let tr := LCD_IFACE_ACQUIRE []
    let sw := lcd_rm68120_set_window off (fun k => env (tr.length + k))
      x y (to_uint16 ((x : Int) + (w : Int) - 1)) (to_uint16 ((y : Int) + (h : Int) - 1)) g
    let tr := tr ++ sw.trace
    if ¬ ESP_OK = sw.ret then ⟨ESP_FAIL, sw.handle, tr⟩ else
    let len := (w * h) % 2 ^ 32
    let wr := LCD_WRITE env tr (Buffer.pixels buf) ((2 * len) % 2 ^ 32)
    let tr := LCD_IFACE_RELEASE wr.2
    if ¬ ESP_OK = wr.1 then ⟨ESP_FAIL, sw.handle, tr⟩ else
    ⟨ESP_OK, sw.handle, tr⟩

/-! ## Initialisation and information -/

/-- The capability set `scr_interface_driver_t` behind `lcd_conf->interface_drv`: for each of
the six operations, whether its function pointer is non-null. (The type is declared in a
header that is not among the sources; these are the six members `lcd_rm68120_init` tests.) -/
structure scr_interface_driver_t where
  write_command : Bool
  write_data : Bool
  write : Bool
  read : Bool
  bus_acquire : Bool
  bus_release : Bool
  deriving DecidableEq, Repr

/-- The members of `scr_controller_config_t` that `lcd_rm68120_init` reads. `interface_drv`
is a pointer: `none` is the null pointer. The pin numbers are signed. -/
structure scr_controller_config_t where
  interface_drv : Option scr_interface_driver_t
  pin_num_rst : Int
  pin_num_bckl : Int
  rst_active_level : Nat
  bckl_active_level : Nat
  width : Nat
  height : Nat
  offset_hor : Nat
  offset_ver : Nat
  rotate : Nat
  deriving DecidableEq, Repr

/-- One GPIO call of `lcd_rm68120_init` (reset and backlight pins). -/
inductive GpioOp where
  /-- The call `gpio_pad_select_gpio(pin)`. -/
  | pad_select (pin : Int)
  /-- The call `gpio_set_direction(pin, GPIO_MODE_OUTPUT)`. -/
  | set_direction_output (pin : Int)
  /-- The call `gpio_set_level(pin, level)`. -/
  | set_level (pin : Int) (level : Nat)
  deriving DecidableEq, Repr

/-- What `lcd_rm68120_init` leaves behind: return value, display handle, the transport calls
it issued in order, and the GPIO calls it issued in order. Task delays are not recorded. -/
structure InitOutcome where
  ret : esp_err_t
  handle : scr_handle_t
  trace : List TransportOp
  pins : List GpioOp
  deriving DecidableEq, Repr

/-- Modelled from the spec: the colour formats of `scr_color_type_t` (declared in
`screen_driver.h`, which is not among the sources). The specification names RGB565; every
other enumerator is kept apart from it. -/
inductive scr_color_type_t where
  | SCR_COLOR_TYPE_RGB565
  | other (tag : Nat)
  deriving DecidableEq, Repr

/-- The members of `scr_info_t` that `lcd_rm68120_get_info` fills in. -/
structure scr_info_t where
  width : Nat
  height : Nat
  dir : Nat
  name : String
  color_type : scr_color_type_t
  bpp : Nat
  deriving DecidableEq, Repr

def LCD_NAME : String := "RM68120"
def LCD_BPP : Nat := 16

/-- The fixed sequence of command and register writes of `lcd_rm68120_init_reg`, in source
order (385 calls: the software reset, the register table, sleep-out, display-on and the two
closing register writes). -/
def lcd_rm68120_init_reg_seq : List TransportOp :=
  [TransportOp.write_cmd_16b 0x0100, TransportOp.write_reg_16b 0xF000 0x55, TransportOp.write_reg_16b 0xF001 0xAA, TransportOp.write_reg_16b 0xF002 0x52,
   TransportOp.write_reg_16b 0xF003 0x08, TransportOp.write_reg_16b 0xF004 0x01, TransportOp.write_reg_16b 0xD100 0x00, TransportOp.write_reg_16b 0xD101 0x00,
   TransportOp.write_reg_16b 0xD102 0x1b, TransportOp.write_reg_16b 0xD103 0x44, TransportOp.write_reg_16b 0xD104 0x62, TransportOp.write_reg_16b 0xD105 0x00,
   TransportOp.write_reg_16b 0xD106 0x7b, TransportOp.write_reg_16b 0xD107 0xa1, TransportOp.write_reg_16b 0xD108 0xc0, TransportOp.write_reg_16b 0xD109 0xee,
   TransportOp.write_reg_16b 0xD10A 0x55, TransportOp.write_reg_16b 0xD10B 0x10, TransportOp.write_reg_16b 0xD10C 0x2c, TransportOp.write_reg_16b 0xD10D 0x43,
   TransportOp.write_reg_16b 0xD10E 0x57, TransportOp.write_reg_16b 0xD10F 0x55, TransportOp.write_reg_16b 0xD110 0x68, TransportOp.write_reg_16b 0xD111 0x78,
   TransportOp.write_reg_16b 0xD112 0x87, TransportOp.write_reg_16b 0xD113 0x94, TransportOp.write_reg_16b 0xD114 0x55, TransportOp.write_reg_16b 0xD115 0xa0,
   TransportOp.write_reg_16b 0xD116 0xac, TransportOp.write_reg_16b 0xD117 0xb6, TransportOp.write_reg_16b 0xD118 0xc1, TransportOp.write_reg_16b 0xD119 0x55,
   TransportOp.write_reg_16b 0xD11A 0xcb, TransportOp.write_reg_16b 0xD11B 0xcd, TransportOp.write_reg_16b 0xD11C 0xd6, TransportOp.write_reg_16b 0xD11D 0xdf,
   TransportOp.write_reg_16b 0xD11E 0x95, TransportOp.write_reg_16b 0xD11F 0xe8, TransportOp.write_reg_16b 0xD120 0xf1, TransportOp.write_reg_16b 0xD121 0xfa,
   TransportOp.write_reg_16b 0xD122 0x02, TransportOp.write_reg_16b 0xD123 0xaa, TransportOp.write_reg_16b 0xD124 0x0b, TransportOp.write_reg_16b 0xD125 0x13,
   TransportOp.write_reg_16b 0xD126 0x1d, TransportOp.write_reg_16b 0xD127 0x26, TransportOp.write_reg_16b 0xD128 0xaa, TransportOp.write_reg_16b 0xD129 0x30,
   TransportOp.write_reg_16b 0xD12A 0x3c, TransportOp.write_reg_16b 0xD12B 0x4A, TransportOp.write_reg_16b 0xD12C 0x63, TransportOp.write_reg_16b 0xD12D 0xea,
   TransportOp.write_reg_16b 0xD12E 0x79, TransportOp.write_reg_16b 0xD12F 0xa6, TransportOp.write_reg_16b 0xD130 0xd0, TransportOp.write_reg_16b 0xD131 0x20,
   TransportOp.write_reg_16b 0xD132 0x0f, TransportOp.write_reg_16b 0xD133 0x8e, TransportOp.write_reg_16b 0xD134 0xff, TransportOp.write_reg_16b 0xD200 0x00,
   TransportOp.write_reg_16b 0xD201 0x00, TransportOp.write_reg_16b 0xD202 0x1b, TransportOp.write_reg_16b 0xD203 0x44, TransportOp.write_reg_16b 0xD204 0x62,
   TransportOp.write_reg_16b 0xD205 0x00, TransportOp.write_reg_16b 0xD206 0x7b, TransportOp.write_reg_16b 0xD207 0xa1, TransportOp.write_reg_16b 0xD208 0xc0,
   TransportOp.write_reg_16b 0xD209 0xee, TransportOp.write_reg_16b 0xD20A 0x55, TransportOp.write_reg_16b 0xD20B 0x10, TransportOp.write_reg_16b 0xD20C 0x2c,
   TransportOp.write_reg_16b 0xD20D 0x43, TransportOp.write_reg_16b 0xD20E 0x57, TransportOp.write_reg_16b 0xD20F 0x55, TransportOp.write_reg_16b 0xD210 0x68,
   TransportOp.write_reg_16b 0xD211 0x78, TransportOp.write_reg_16b 0xD212 0x87, TransportOp.write_reg_16b 0xD213 0x94, TransportOp.write_reg_16b 0xD214 0x55,
   TransportOp.write_reg_16b 0xD215 0xa0, TransportOp.write_reg_16b 0xD216 0xac, TransportOp.write_reg_16b 0xD217 0xb6, TransportOp.write_reg_16b 0xD218 0xc1,
   TransportOp.write_reg_16b 0xD219 0x55, TransportOp.write_reg_16b 0xD21A 0xcb, TransportOp.write_reg_16b 0xD21B 0xcd, TransportOp.write_reg_16b 0xD21C 0xd6,
   TransportOp.write_reg_16b 0xD21D 0xdf, TransportOp.write_reg_16b 0xD21E 0x95, TransportOp.write_reg_16b 0xD21F 0xe8, TransportOp.write_reg_16b 0xD220 0xf1,
   TransportOp.write_reg_16b 0xD221 0xfa, TransportOp.write_reg_16b 0xD222 0x02, TransportOp.write_reg_16b 0xD223 0xaa, TransportOp.write_reg_16b 0xD224 0x0b,
   TransportOp.write_reg_16b 0xD225 0x13, TransportOp.write_reg_16b 0xD226 0x1d, TransportOp.write_reg_16b 0xD227 0x26, TransportOp.write_reg_16b 0xD228 0xaa,
   TransportOp.write_reg_16b 0xD229 0x30, TransportOp.write_reg_16b 0xD22A 0x3c, TransportOp.write_reg_16b 0xD22B 0x4a, TransportOp.write_reg_16b 0xD22C 0x63,
   TransportOp.write_reg_16b 0xD22D 0xea, TransportOp.write_reg_16b 0xD22E 0x79, TransportOp.write_reg_16b 0xD22F 0xa6, TransportOp.write_reg_16b 0xD230 0xd0,
   TransportOp.write_reg_16b 0xD231 0x20, TransportOp.write_reg_16b 0xD232 0x0f, TransportOp.write_reg_16b 0xD233 0x8e, TransportOp.write_reg_16b 0xD234 0xff,
   TransportOp.write_reg_16b 0xD300 0x00, TransportOp.write_reg_16b 0xD301 0x00, TransportOp.write_reg_16b 0xD302 0x1b, TransportOp.write_reg_16b 0xD303 0x44,
   TransportOp.write_reg_16b 0xD304 0x62, TransportOp.write_reg_16b 0xD305 0x00, TransportOp.write_reg_16b 0xD306 0x7b, TransportOp.write_reg_16b 0xD307 0xa1,
   TransportOp.write_reg_16b 0xD308 0xc0, TransportOp.write_reg_16b 0xD309 0xee, TransportOp.write_reg_16b 0xD30A 0x55, TransportOp.write_reg_16b 0xD30B 0x10,
   TransportOp.write_reg_16b 0xD30C 0x2c, TransportOp.write_reg_16b 0xD30D 0x43, TransportOp.write_reg_16b 0xD30E 0x57, TransportOp.write_reg_16b 0xD30F 0x55,
   TransportOp.write_reg_16b 0xD310 0x68, TransportOp.write_reg_16b 0xD311 0x78, TransportOp.write_reg_16b 0xD312 0x87, TransportOp.write_reg_16b 0xD313 0x94,
   TransportOp.write_reg_16b 0xD314 0x55, TransportOp.write_reg_16b 0xD315 0xa0, TransportOp.write_reg_16b 0xD316 0xac, TransportOp.write_reg_16b 0xD317 0xb6,
   TransportOp.write_reg_16b 0xD318 0xc1, TransportOp.write_reg_16b 0xD319 0x55, TransportOp.write_reg_16b 0xD31A 0xcb, TransportOp.write_reg_16b 0xD31B 0xcd,
   TransportOp.write_reg_16b 0xD31C 0xd6, TransportOp.write_reg_16b 0xD31D 0xdf, TransportOp.write_reg_16b 0xD31E 0x95, TransportOp.write_reg_16b 0xD31F 0xe8,
   TransportOp.write_reg_16b 0xD320 0xf1, TransportOp.write_reg_16b 0xD321 0xfa, TransportOp.write_reg_16b 0xD322 0x02, TransportOp.write_reg_16b 0xD323 0xaa,
   TransportOp.write_reg_16b 0xD324 0x0b, TransportOp.write_reg_16b 0xD325 0x13, TransportOp.write_reg_16b 0xD326 0x1d, TransportOp.write_reg_16b 0xD327 0x26,
   TransportOp.write_reg_16b 0xD328 0xaa, TransportOp.write_reg_16b 0xD329 0x30, TransportOp.write_reg_16b 0xD32A 0x3c, TransportOp.write_reg_16b 0xD32B 0x4A,
   TransportOp.write_reg_16b 0xD32C 0x63, TransportOp.write_reg_16b 0xD32D 0xea, TransportOp.write_reg_16b 0xD32E 0x79, TransportOp.write_reg_16b 0xD32F 0xa6,
   TransportOp.write_reg_16b 0xD330 0xd0, TransportOp.write_reg_16b 0xD331 0x20, TransportOp.write_reg_16b 0xD332 0x0f, TransportOp.write_reg_16b 0xD333 0x8e,
   TransportOp.write_reg_16b 0xD334 0xff, TransportOp.write_reg_16b 0xD400 0x00, TransportOp.write_reg_16b 0xD401 0x00, TransportOp.write_reg_16b 0xD402 0x1b,
   TransportOp.write_reg_16b 0xD403 0x44, TransportOp.write_reg_16b 0xD404 0x62, TransportOp.write_reg_16b 0xD405 0x00, TransportOp.write_reg_16b 0xD406 0x7b,
   TransportOp.write_reg_16b 0xD407 0xa1, TransportOp.write_reg_16b 0xD408 0xc0, TransportOp.write_reg_16b 0xD409 0xee, TransportOp.write_reg_16b 0xD40A 0x55,
   TransportOp.write_reg_16b 0xD40B 0x10, TransportOp.write_reg_16b 0xD40C 0x2c, TransportOp.write_reg_16b 0xD40D 0x43, TransportOp.write_reg_16b 0xD40E 0x57,
   TransportOp.write_reg_16b 0xD40F 0x55, TransportOp.write_reg_16b 0xD410 0x68, TransportOp.write_reg_16b 0xD411 0x78, TransportOp.write_reg_16b 0xD412 0x87,
   TransportOp.write_reg_16b 0xD413 0x94, TransportOp.write_reg_16b 0xD414 0x55, TransportOp.write_reg_16b 0xD415 0xa0, TransportOp.write_reg_16b 0xD416 0xac,
   TransportOp.write_reg_16b 0xD417 0xb6, TransportOp.write_reg_16b 0xD418 0xc1, TransportOp.write_reg_16b 0xD419 0x55, TransportOp.write_reg_16b 0xD41A 0xcb,
   TransportOp.write_reg_16b 0xD41B 0xcd, TransportOp.write_reg_16b 0xD41C 0xd6, TransportOp.write_reg_16b 0xD41D 0xdf, TransportOp.write_reg_16b 0xD41E 0x95,
   TransportOp.write_reg_16b 0xD41F 0xe8, TransportOp.write_reg_16b 0xD420 0xf1, TransportOp.write_reg_16b 0xD421 0xfa, TransportOp.write_reg_16b 0xD422 0x02,
   TransportOp.write_reg_16b 0xD423 0xaa, TransportOp.write_reg_16b 0xD424 0x0b, TransportOp.write_reg_16b 0xD425 0x13, TransportOp.write_reg_16b 0xD426 0x1d,
   TransportOp.write_reg_16b 0xD427 0x26, TransportOp.write_reg_16b 0xD428 0xaa, TransportOp.write_reg_16b 0xD429 0x30, TransportOp.write_reg_16b 0xD42A 0x3c,
   TransportOp.write_reg_16b 0xD42B 0x4A, TransportOp.write_reg_16b 0xD42C 0x63, TransportOp.write_reg_16b 0xD42D 0xea, TransportOp.write_reg_16b 0xD42E 0x79,
   TransportOp.write_reg_16b 0xD42F 0xa6, TransportOp.write_reg_16b 0xD430 0xd0, TransportOp.write_reg_16b 0xD431 0x20, TransportOp.write_reg_16b 0xD432 0x0f,
   TransportOp.write_reg_16b 0xD433 0x8e, TransportOp.write_reg_16b 0xD434 0xff, TransportOp.write_reg_16b 0xD500 0x00, TransportOp.write_reg_16b 0xD501 0x00,
   TransportOp.write_reg_16b 0xD502 0x1b, TransportOp.write_reg_16b 0xD503 0x44, TransportOp.write_reg_16b 0xD504 0x62, TransportOp.write_reg_16b 0xD505 0x00,
   TransportOp.write_reg_16b 0xD506 0x7b, TransportOp.write_reg_16b 0xD507 0xa1, TransportOp.write_reg_16b 0xD508 0xc0, TransportOp.write_reg_16b 0xD509 0xee,
   TransportOp.write_reg_16b 0xD50A 0x55, TransportOp.write_reg_16b 0xD50B 0x10, TransportOp.write_reg_16b 0xD50C 0x2c, TransportOp.write_reg_16b 0xD50D 0x43,
   TransportOp.write_reg_16b 0xD50E 0x57, TransportOp.write_reg_16b 0xD50F 0x55, TransportOp.write_reg_16b 0xD510 0x68, TransportOp.write_reg_16b 0xD511 0x78,
   TransportOp.write_reg_16b 0xD512 0x87, TransportOp.write_reg_16b 0xD513 0x94, TransportOp.write_reg_16b 0xD514 0x55, TransportOp.write_reg_16b 0xD515 0xa0,
   TransportOp.write_reg_16b 0xD516 0xac, TransportOp.write_reg_16b 0xD517 0xb6, TransportOp.write_reg_16b 0xD518 0xc1, TransportOp.write_reg_16b 0xD519 0x55,
   TransportOp.write_reg_16b 0xD51A 0xcb, TransportOp.write_reg_16b 0xD51B 0xcd, TransportOp.write_reg_16b 0xD51C 0xd6, TransportOp.write_reg_16b 0xD51D 0xdf,
   TransportOp.write_reg_16b 0xD51E 0x95, TransportOp.write_reg_16b 0xD51F 0xe8, TransportOp.write_reg_16b 0xD520 0xf1, TransportOp.write_reg_16b 0xD521 0xfa,
   TransportOp.write_reg_16b 0xD522 0x02, TransportOp.write_reg_16b 0xD523 0xaa, TransportOp.write_reg_16b 0xD524 0x0b, TransportOp.write_reg_16b 0xD525 0x13,
   TransportOp.write_reg_16b 0xD526 0x1d, TransportOp.write_reg_16b 0xD527 0x26, TransportOp.write_reg_16b 0xD528 0xaa, TransportOp.write_reg_16b 0xD529 0x30,
   TransportOp.write_reg_16b 0xD52A 0x3c, TransportOp.write_reg_16b 0xD52B 0x4a, TransportOp.write_reg_16b 0xD52C 0x63, TransportOp.write_reg_16b 0xD52D 0xea,
   TransportOp.write_reg_16b 0xD52E 0x79, TransportOp.write_reg_16b 0xD52F 0xa6, TransportOp.write_reg_16b 0xD530 0xd0, TransportOp.write_reg_16b 0xD531 0x20,
   TransportOp.write_reg_16b 0xD532 0x0f, TransportOp.write_reg_16b 0xD533 0x8e, TransportOp.write_reg_16b 0xD534 0xff, TransportOp.write_reg_16b 0xD600 0x00,
   TransportOp.write_reg_16b 0xD601 0x00, TransportOp.write_reg_16b 0xD602 0x1b, TransportOp.write_reg_16b 0xD603 0x44, TransportOp.write_reg_16b 0xD604 0x62,
   TransportOp.write_reg_16b 0xD605 0x00, TransportOp.write_reg_16b 0xD606 0x7b, TransportOp.write_reg_16b 0xD607 0xa1, TransportOp.write_reg_16b 0xD608 0xc0,
   TransportOp.write_reg_16b 0xD609 0xee, TransportOp.write_reg_16b 0xD60A 0x55, TransportOp.write_reg_16b 0xD60B 0x10, TransportOp.write_reg_16b 0xD60C 0x2c,
   TransportOp.write_reg_16b 0xD60D 0x43, TransportOp.write_reg_16b 0xD60E 0x57, TransportOp.write_reg_16b 0xD60F 0x55, TransportOp.write_reg_16b 0xD610 0x68,
   TransportOp.write_reg_16b 0xD611 0x78, TransportOp.write_reg_16b 0xD612 0x87, TransportOp.write_reg_16b 0xD613 0x94, TransportOp.write_reg_16b 0xD614 0x55,
   TransportOp.write_reg_16b 0xD615 0xa0, TransportOp.write_reg_16b 0xD616 0xac, TransportOp.write_reg_16b 0xD617 0xb6, TransportOp.write_reg_16b 0xD618 0xc1,
   TransportOp.write_reg_16b 0xD619 0x55, TransportOp.write_reg_16b 0xD61A 0xcb, TransportOp.write_reg_16b 0xD61B 0xcd, TransportOp.write_reg_16b 0xD61C 0xd6,
   TransportOp.write_reg_16b 0xD61D 0xdf, TransportOp.write_reg_16b 0xD61E 0x95, TransportOp.write_reg_16b 0xD61F 0xe8, TransportOp.write_reg_16b 0xD620 0xf1,
   TransportOp.write_reg_16b 0xD621 0xfa, TransportOp.write_reg_16b 0xD622 0x02, TransportOp.write_reg_16b 0xD623 0xaa, TransportOp.write_reg_16b 0xD624 0x0b,
   TransportOp.write_reg_16b 0xD625 0x13, TransportOp.write_reg_16b 0xD626 0x1d, TransportOp.write_reg_16b 0xD627 0x26, TransportOp.write_reg_16b 0xD628 0xaa,
   TransportOp.write_reg_16b 0xD629 0x30, TransportOp.write_reg_16b 0xD62A 0x3c, TransportOp.write_reg_16b 0xD62B 0x4A, TransportOp.write_reg_16b 0xD62C 0x63,
   TransportOp.write_reg_16b 0xD62D 0xea, TransportOp.write_reg_16b 0xD62E 0x79, TransportOp.write_reg_16b 0xD62F 0xa6, TransportOp.write_reg_16b 0xD630 0xd0,
   TransportOp.write_reg_16b 0xD631 0x20, TransportOp.write_reg_16b 0xD632 0x0f, TransportOp.write_reg_16b 0xD633 0x8e, TransportOp.write_reg_16b 0xD634 0xff,
   TransportOp.write_reg_16b 0xB000 0x05, TransportOp.write_reg_16b 0xB001 0x05, TransportOp.write_reg_16b 0xB002 0x05, TransportOp.write_reg_16b 0xB100 0x05,
   TransportOp.write_reg_16b 0xB101 0x05, TransportOp.write_reg_16b 0xB102 0x05, TransportOp.write_reg_16b 0xB600 0x34, TransportOp.write_reg_16b 0xB601 0x34,
   TransportOp.write_reg_16b 0xB603 0x34, TransportOp.write_reg_16b 0xB700 0x24, TransportOp.write_reg_16b 0xB701 0x24, TransportOp.write_reg_16b 0xB702 0x24,
   TransportOp.write_reg_16b 0xB800 0x24, TransportOp.write_reg_16b 0xB801 0x24, TransportOp.write_reg_16b 0xB802 0x24, TransportOp.write_reg_16b 0xBA00 0x14,
   TransportOp.write_reg_16b 0xBA01 0x14, TransportOp.write_reg_16b 0xBA02 0x14, TransportOp.write_reg_16b 0xB900 0x24, TransportOp.write_reg_16b 0xB901 0x24,
   TransportOp.write_reg_16b 0xB902 0x24, TransportOp.write_reg_16b 0xBc00 0x00, TransportOp.write_reg_16b 0xBc01 0xa0, TransportOp.write_reg_16b 0xBc02 0x00,
   TransportOp.write_reg_16b 0xBd00 0x00, TransportOp.write_reg_16b 0xBd01 0xa0, TransportOp.write_reg_16b 0xBd02 0x00, TransportOp.write_reg_16b 0xBe01 0x3d,
   TransportOp.write_reg_16b 0xF000 0x55, TransportOp.write_reg_16b 0xF001 0xAA, TransportOp.write_reg_16b 0xF002 0x52, TransportOp.write_reg_16b 0xF003 0x08,
   TransportOp.write_reg_16b 0xF004 0x00, TransportOp.write_reg_16b 0xB400 0x10, TransportOp.write_reg_16b 0xBC00 0x05, TransportOp.write_reg_16b 0xBC01 0x05,
   TransportOp.write_reg_16b 0xBC02 0x05, TransportOp.write_reg_16b 0xB700 0x22, TransportOp.write_reg_16b 0xB701 0x22, TransportOp.write_reg_16b 0xC80B 0x2A,
   TransportOp.write_reg_16b 0xC80C 0x2A, TransportOp.write_reg_16b 0xC80F 0x2A, TransportOp.write_reg_16b 0xC810 0x2A, TransportOp.write_reg_16b 0xd000 0x01,
   TransportOp.write_reg_16b 0xb300 0x10, TransportOp.write_reg_16b 0xBd02 0x07, TransportOp.write_reg_16b 0xBe02 0x07, TransportOp.write_reg_16b 0xBf02 0x07,
   TransportOp.write_reg_16b 0xF000 0x55, TransportOp.write_reg_16b 0xF001 0xAA, TransportOp.write_reg_16b 0xF002 0x52, TransportOp.write_reg_16b 0xF003 0x08,
   TransportOp.write_reg_16b 0xF004 0x02, TransportOp.write_reg_16b 0xc301 0xa9, TransportOp.write_reg_16b 0xfe01 0x94, TransportOp.write_reg_16b 0xf600 0x60,
   TransportOp.write_reg_16b 0x3500 0x00, TransportOp.write_cmd_16b 0x1100, TransportOp.write_cmd_16b 0x2900, TransportOp.write_reg_16b 0x3A00 0x55,
   TransportOp.write_reg_16b 0x3600 0xA3]

/-- The function `lcd_rm68120_init_reg()`: every call of the sequence is issued through its
macro and the value it returns is discarded (the function is `void`). `tr` is the trace of
the transport calls made before it. -/
def lcd_rm68120_init_reg (env : Nat → esp_err_t) (tr : List TransportOp) : List TransportOp :=
  lcd_rm68120_init_reg_seq.foldl
    (fun tr op =>
      match op with
      | TransportOp.write_cmd_16b cmd => (LCD_WRITE_CMD_16B env tr cmd).2
      | TransportOp.write_reg_16b reg data => (LCD_WRITE_REG_16B env tr reg data).2
      | _ => tr)
    tr

/-- The function `lcd_rm68120_init(lcd_conf)`; `none` as `lcd_conf` is the null pointer. The
result `none` stands for undefined behaviour: the first check reads `lcd_conf->width` before
`lcd_conf` is compared with `NULL`, and the interface check reads through
`lcd_conf->interface_drv` without testing that pointer. The closing `lcd_rm68120_set_rotation`
sees the oracle shifted past the calls of `lcd_rm68120_init_reg`. -/
def lcd_rm68120_init (env : Nat → esp_err_t) (lcd_conf : Option scr_controller_config_t)
    (g : scr_handle_t) : Option InitOutcome :=
  match lcd_conf with
  | none => none
  | some conf =>
    if ¬ conf.width ≤ RM68120_RESOLUTION_HOR then some ⟨ESP_ERR_INVALID_ARG, g, [], []⟩ else
    if ¬ conf.height ≤ RM68120_RESOLUTION_VER then some ⟨ESP_ERR_INVALID_ARG, g, [], []⟩ else
    -- LCD_CHECK(NULL != lcd_conf, ...) holds here
    match conf.interface_drv with
    | none => none
    | some drv =>
      if ¬ (drv.write_command ∧ drv.write_data ∧ drv.write ∧ drv.read ∧ drv.bus_acquire ∧
          drv.bus_release) then some ⟨ESP_ERR_INVALID_ARG, g, [], []⟩ else
      -- Reset the display
      let pins : List GpioOp :=
        if conf.pin_num_rst ≥ 0 then
          [GpioOp.pad_select conf.pin_num_rst,
           GpioOp.set_direction_output conf.pin_num_rst,
           GpioOp.set_level conf.pin_num_rst (conf.rst_active_level &&& 0x1),
           GpioOp.set_level conf.pin_num_rst ((0xFFFFFFFF ^^^ conf.rst_active_level) &&& 0x1)]
        else []
      let g := { g with original_width := conf.width, original_height := conf.height,
                        offset_hor := conf.offset_hor, offset_ver := conf.offset_ver }
      let tr := lcd_rm68120_init_reg env []
      -- Enable backlight
      let pins : List GpioOp :=
        if conf.pin_num_bckl ≥ 0 then
          pins ++ [GpioOp.pad_select conf.pin_num_bckl,
                   GpioOp.set_direction_output conf.pin_num_bckl,
                   GpioOp.set_level conf.pin_num_bckl (conf.bckl_active_level &&& 0x1)]
        else pins
      let rot := lcd_rm68120_set_rotation (fun k => env (tr.length + k)) conf.rotate g
      let tr := tr ++ rot.trace
      if ¬ ESP_OK = rot.ret then some ⟨ESP_FAIL, rot.handle, tr, pins⟩ else
      some ⟨ESP_OK, rot.handle, tr, pins⟩

/-- The function `lcd_rm68120_deinit()`: the handle is cleared. -/
def lcd_rm68120_deinit : Outcome :=
  ⟨ESP_OK, ⟨0, 0, 0, 0, 0, 0, 0⟩, []⟩

/-- The function `lcd_rm68120_get_info(info)`; `none` is the null pointer, `some i` a pointer
to a caller-owned `scr_info_t` holding `i`. The second component is what that struct holds
after the call. -/
def lcd_rm68120_get_info (info : Option scr_info_t) (g : scr_handle_t) :
    Outcome × Option scr_info_t :=
  match info with
  | none => (⟨ESP_ERR_INVALID_ARG, g, []⟩, none)
  | some i =>
    (⟨ESP_OK, g, []⟩,
      some { i with width := g.width, height := g.height, dir := g.dir, name := LCD_NAME,
                    color_type := scr_color_type_t.SCR_COLOR_TYPE_RGB565, bpp := LCD_BPP })

/-! ## Auxiliary notions used in the statements -/

/-- Number of `bus_acquire` calls in a trace. -/
def count_acquire (tr : List TransportOp) : Nat := tr.count TransportOp.bus_acquire

/-- Number of `bus_release` calls in a trace. -/
def count_release (tr : List TransportOp) : Nat := tr.count TransportOp.bus_release

/-- A display handle used for concrete evaluations: a 480 x 800 panel in direction
`SCR_DIR_LRTB`, without pixel offsets. -/
def portrait_handle : scr_handle_t :=
  { original_width := 480, original_height := 800, width := 480, height := 800,
    offset_hor := 0, offset_ver := 0, dir := 0 }

/-- An offset utility that adds the handle's `offset_hor` / `offset_ver` to the window
(used for concrete evaluations only). -/
def plain_offset : OffsetUtility := fun g _ _ win =>
  ⟨win.x0 + g.offset_hor, win.y0 + g.offset_ver, win.x1 + g.offset_hor, win.y1 + g.offset_ver⟩

/-- The orientation byte the specification documents for a direction `d` of the 8-way enum:
the OR of MY (0x80) iff `d` is in {1,3,5,7}, MX (0x40) iff `d` is in {2,3,6,7} and MV (0x20)
iff `d` is in {4,5,6,7}. -/
def documented_madctl (d : Nat) : Nat :=
  (if d ∈ [1, 3, 5, 7] then 0x80 else 0) ||| (if d ∈ [2, 3, 6, 7] then 0x40 else 0) |||
    (if d ∈ [4, 5, 6, 7] then 0x20 else 0)

/-- The nine transport calls documented for a window whose coordinates, after the offset
utility, are `W`: column range (high and low byte of `x0`, then of `x1`), row range (high
and low byte of `y0`, then of `y1`), memory-write command. -/
def window_ops (W : Window) : List TransportOp :=
  [TransportOp.write_reg_16b 0x2A00 (W.x0 >>> 8), TransportOp.write_reg_16b 0x2A01 (W.x0 &&& 0xFF),
   TransportOp.write_reg_16b 0x2A02 (W.x1 >>> 8), TransportOp.write_reg_16b 0x2A03 (W.x1 &&& 0xFF),
   TransportOp.write_reg_16b 0x2B00 (W.y0 >>> 8), TransportOp.write_reg_16b 0x2B01 (W.y0 &&& 0xFF),
   TransportOp.write_reg_16b 0x2B02 (W.y1 >>> 8), TransportOp.write_reg_16b 0x2B03 (W.y1 &&& 0xFF),
   TransportOp.write_cmd_16b 0x2C00]

/-- The logical size stored in the handle is one `lcd_rm68120_init` admits: it only stores
native sizes up to 480 x 800, so neither logical side exceeds 800. -/
def size_within_panel (g : scr_handle_t) : Prop :=
  g.width ≤ RM68120_RESOLUTION_VER ∧ g.height ≤ RM68120_RESOLUTION_VER

instance (g : scr_handle_t) : Decidable (size_within_panel g) := by
  unfold size_within_panel; exact inferInstance

/-- A fully populated capability set. -/
def full_interface : scr_interface_driver_t :=
  { write_command := true, write_data := true, write := true, read := true,
    bus_acquire := true, bus_release := true }

/-- A configuration used for concrete evaluations: the 480 x 800 panel, reset pin 4 (active
low), backlight pin 5 (active high), no offsets, requested direction `rotate`. -/
def panel_config (rotate : Nat) : scr_controller_config_t :=
  { interface_drv := some full_interface, pin_num_rst := 4, pin_num_bckl := 5,
    rst_active_level := 0, bckl_active_level := 1, width := 480, height := 800,
    offset_hor := 0, offset_ver := 0, rotate := rotate }

/-- The cleared display handle (before `lcd_rm68120_init`, after `lcd_rm68120_deinit`). -/
def cleared_handle : scr_handle_t := ⟨0, 0, 0, 0, 0, 0, 0⟩

/-- The direction `lcd_rm68120_set_rotation` works with after its normalisation step. -/
def normalized_dir (dir : Nat) : Nat := if SCR_DIR_MAX < dir then dir >>> 5 else dir

/-- All six operations of a capability set are present. -/
def fully_populated (drv : scr_interface_driver_t) : Prop :=
  drv.write_command = true ∧ drv.write_data = true ∧ drv.write = true ∧ drv.read = true ∧
    drv.bus_acquire = true ∧ drv.bus_release = true

instance (drv : scr_interface_driver_t) : Decidable (fully_populated drv) := by
  unfold fully_populated; exact inferInstance

/-- The transport call is a command write or a register write. -/
def is_cmd_or_reg (op : TransportOp) : Bool :=
  match op with
  | TransportOp.write_cmd_16b _ => true
  | TransportOp.write_reg_16b _ _ => true
  | _ => false

/-- The oracle under which every call of `lcd_rm68120_init_reg` fails and every later
transport call succeeds. -/
def init_reg_fails : Nat → esp_err_t := fun k => if k < 385 then ESP_FAIL else ESP_OK

/-- The oracle under which only transport call number 385 (the MADCTL write that closes
`lcd_rm68120_init`) fails. -/
def madctl_fails : Nat → esp_err_t := fun k => if k = 385 then ESP_FAIL else ESP_OK

/-- A caller-owned `scr_info_t` with arbitrary prior content (used for concrete
evaluations). -/
def blank_info : scr_info_t :=
  { width := 0, height := 0, dir := 0, name := "", color_type := scr_color_type_t.other 0,
    bpp := 0 }

/-- The oracle under which every transport call succeeds. -/
def all_ok : Nat → esp_err_t := fun _ => ESP_OK

/-! ## Arithmetic of the C operators -/

theorem nat_lor_eq_zero (m n : Nat) : m ||| n = 0 ↔ m = 0 ∧ n = 0 := by
  constructor
  · intro h
    have hb : ∀ i, (m.testBit i || n.testBit i) = false := by
      intro i
      rw [← Nat.testBit_or, h, Nat.zero_testBit]
    constructor
    · apply Nat.eq_of_testBit_eq
      intro i
      have := hb i
      rw [Nat.zero_testBit]
      cases hm : m.testBit i <;> simp_all
    · apply Nat.eq_of_testBit_eq
      intro i
      have := hb i
      rw [Nat.zero_testBit]
      cases hn : n.testBit i <;> simp_all
  · rintro ⟨rfl, rfl⟩
    rfl

/-- The bitwise OR of two `esp_err_t` values is `ESP_OK` (0) only if both are. -/
theorem int_lor_eq_zero (a b : Int) : Int.lor a b = 0 ↔ a = 0 ∧ b = 0 := by
  cases a <;> cases b <;> simp [Int.lor]
  · exact_mod_cast nat_lor_eq_zero _ _

theorem and_0xff (x : Nat) : x &&& 0xff = x % 256 := Nat.and_pow_two_sub_one_eq_mod x 8

theorem shr_8 (x : Nat) : x >>> 8 = x / 256 := Nat.shiftRight_eq_div_pow x 8

theorem all_below_nine (env : Nat → esp_err_t) :
    (∀ k, k < 9 → env k = ESP_OK) ↔
      (env 0 = 0 ∧ env 1 = 0 ∧ env 2 = 0 ∧ env 3 = 0 ∧ env 4 = 0 ∧ env 5 = 0 ∧ env 6 = 0 ∧
        env 7 = 0 ∧ env 8 = 0) := by
  constructor
  · intro h
    exact ⟨h 0 (by omega), h 1 (by omega), h 2 (by omega), h 3 (by omega), h 4 (by omega),
      h 5 (by omega), h 6 (by omega), h 7 (by omega), h 8 (by omega)⟩
  · rintro ⟨h0, h1, h2, h3, h4, h5, h6, h7, h8⟩ k hk
    interval_cases k <;> assumption

/-- On a window that passes both checks, `lcd_rm68120_set_window` issues the nine documented
calls whatever their results, leaves the handle alone, and returns `ESP_OK` when all nine
results are `ESP_OK` and `ESP_FAIL` otherwise. -/
theorem set_window_valid_eq (off : OffsetUtility) (env : Nat → esp_err_t)
    (x0 y0 x1 y1 : Nat) (g : scr_handle_t)
    (hx1 : x1 < g.width) (hy1 : y1 < g.height) (hx : x0 ≤ x1) (hy : y0 ≤ y1) :
    (lcd_rm68120_set_window off env x0 y0 x1 y1 g).trace =
      window_ops (scr_utility_apply_offset off g RM68120_RESOLUTION_HOR
        RM68120_RESOLUTION_VER ⟨x0, y0, x1, y1⟩) ∧
    (lcd_rm68120_set_window off env x0 y0 x1 y1 g).handle = g ∧
    ((∀ k, k < 9 → env k = ESP_OK) →
      (lcd_rm68120_set_window off env x0 y0 x1 y1 g).ret = ESP_OK) ∧
    (¬ (∀ k, k < 9 → env k = ESP_OK) →
      (lcd_rm68120_set_window off env x0 y0 x1 y1 g).ret = ESP_FAIL) := by
  have hret : (ESP_OK = Int.lor (Int.lor (Int.lor (Int.lor (Int.lor (Int.lor (Int.lor (Int.lor
      (Int.lor ESP_OK (env 0)) (env 1)) (env 2)) (env 3)) (env 4)) (env 5)) (env 6)) (env 7))
      (env 8)) ↔ (∀ k, k < 9 → env k = ESP_OK) := by
    rw [all_below_nine, eq_comm]
    simp only [int_lor_eq_zero, ESP_OK, true_and, and_assoc]
  have hval : x1 < g.width ∧ y1 < g.height := ⟨hx1, hy1⟩
  have hord : x0 ≤ x1 ∧ y0 ≤ y1 := ⟨hx, hy⟩
  simp only [lcd_rm68120_set_window, hval, hord, not_true_eq_false, if_false,
    LCD_WRITE_REG_16B, LCD_WRITE_CMD_16B, List.nil_append, List.length_nil, List.length_cons,
    List.length_append, List.cons_append, hret, ite_not]
  by_cases hall : ∀ k, k < 9 → env k = ESP_OK
  · rw [if_pos hall]
    exact ⟨rfl, rfl, fun _ => rfl, fun h => absurd hall h⟩
  · rw [if_neg hall]
    exact ⟨rfl, rfl, fun h => absurd h hall, fun _ => rfl⟩

/-! ## Rotation -/

/-- C1: for every handle and every direction `d` of the 8-way enum, when the register write
succeeds `lcd_rm68120_set_rotation d` returns `ESP_OK` and issues exactly one transport call,
the 16-bit register write of the documented orientation byte to MADCTL (0x3600); that byte has
the RGB bit and every bit other than MY, MX, MV clear; afterwards the logical size is
(original height, original width) when the MV bit of the written byte is set and
(original width, original height) otherwise, the stored direction is `d`, and the remaining
fields of the handle are untouched. -/
theorem set_rotation_madctl_and_size (env : Nat → esp_err_t) (g : scr_handle_t) (d : Nat)
    (hd : d < 8) (hok : env 0 = ESP_OK) :
    (lcd_rm68120_set_rotation env d g).ret = ESP_OK ∧
    (lcd_rm68120_set_rotation env d g).trace =
      [TransportOp.write_reg_16b 0x3600 (documented_madctl d)] ∧
    documented_madctl d &&& MADCTL_RGB = 0 ∧
    documented_madctl d &&& (0xFFFFFFFF ^^^ (MADCTL_MY ||| MADCTL_MX ||| MADCTL_MV)) = 0 ∧
    documented_madctl d < 256 ∧
    ((lcd_rm68120_set_rotation env d g).handle.width,
      (lcd_rm68120_set_rotation env d g).handle.height) =
      (if documented_madctl d &&& MADCTL_MV = MADCTL_MV
        then (g.original_height, g.original_width)
        else (g.original_width, g.original_height)) ∧
    (lcd_rm68120_set_rotation env d g).handle.dir = d ∧
    (lcd_rm68120_set_rotation env d g).handle.original_width = g.original_width ∧
    (lcd_rm68120_set_rotation env d g).handle.original_height = g.original_height ∧
    (lcd_rm68120_set_rotation env d g).handle.offset_hor = g.offset_hor ∧
    (lcd_rm68120_set_rotation env d g).handle.offset_ver = g.offset_ver := by
  interval_cases d <;>
    simp [lcd_rm68120_set_rotation, LCD_WRITE_REG_16B, hok, SCR_DIR_MAX, ESP_OK, RM68120_MADCTL,
      MADCTL_MY, MADCTL_MX, MADCTL_MV, MADCTL_RGB, documented_madctl] <;>
    first
      | decide
      | exact ⟨by decide, by decide, (if_pos (by decide)).symm⟩

/-- Instance of C1: direction `SCR_DIR_BTLR` (5) on the 480 x 800 portrait handle. -/
theorem set_rotation_madctl_and_size_witness :
    (5 < 8 ∧ all_ok 0 = ESP_OK) ∧
    (lcd_rm68120_set_rotation all_ok 5 portrait_handle).trace =
      [TransportOp.write_reg_16b 0x3600 0xA0] ∧
    (lcd_rm68120_set_rotation all_ok 5 portrait_handle).handle.width = 800 ∧
    (lcd_rm68120_set_rotation all_ok 5 portrait_handle).handle.height = 480 ∧
    (lcd_rm68120_set_rotation all_ok 5 portrait_handle).handle.dir = 5 := by
  have h := set_rotation_madctl_and_size all_ok portrait_handle 5 (by decide) rfl
  refine ⟨⟨by decide, rfl⟩, h.2.1, ?_, ?_, h.2.2.2.2.2.2.1⟩
  · exact congrArg Prod.fst h.2.2.2.2.2.1
  · exact congrArg Prod.snd h.2.2.2.2.2.1

/-- C2: for every raw direction value `v ≥ 8`, with the MADCTL write succeeding,
`lcd_rm68120_set_rotation v` returns `ESP_OK` exactly when `v >> 5` lies in [0,8) (and then
stores `v >> 5` as the direction); otherwise it returns `ESP_ERR_INVALID_ARG`, issues no
transport call and leaves the handle alone. In particular the raw value 256 shifts to 8 and
is rejected. -/
theorem set_rotation_raw_value (env : Nat → esp_err_t) (g : scr_handle_t) (v : Nat)
    (hv : 8 ≤ v) (hok : env 0 = ESP_OK) :
    ((lcd_rm68120_set_rotation env v g).ret = ESP_OK ↔ v >>> 5 < 8) ∧
    (v >>> 5 < 8 → (lcd_rm68120_set_rotation env v g).handle.dir = v >>> 5) ∧
    (¬ v >>> 5 < 8 → lcd_rm68120_set_rotation env v g = ⟨ESP_ERR_INVALID_ARG, g, []⟩) ∧
    256 >>> 5 = 8 ∧
    lcd_rm68120_set_rotation env 256 g = ⟨ESP_ERR_INVALID_ARG, g, []⟩ := by
  have hmax : SCR_DIR_MAX < v := by
    unfold SCR_DIR_MAX
    omega
  refine ⟨?_, ?_, ?_, by decide, ?_⟩
  · by_cases h : v >>> 5 < 8
    · simp only [h, iff_true]
      generalize hd : v >>> 5 = d at h
      interval_cases d <;>
        simp [lcd_rm68120_set_rotation, LCD_WRITE_REG_16B, hok, hmax, hd, ESP_OK]
    · simp [lcd_rm68120_set_rotation, hmax, h, ESP_ERR_INVALID_ARG, ESP_OK]
  · intro h
    generalize hd : v >>> 5 = d at h
    interval_cases d <;>
      simp [lcd_rm68120_set_rotation, LCD_WRITE_REG_16B, hok, hmax, hd, ESP_OK]
  · intro h
    simp [lcd_rm68120_set_rotation, hmax, h]
  · simp [lcd_rm68120_set_rotation, SCR_DIR_MAX]

/-- Instance of C2: the packed value 0x80 (axis swap) shifts to 4 and is accepted; the
direction stored is 4. -/
theorem set_rotation_raw_value_witness :
    (8 ≤ 0x80 ∧ all_ok 0 = ESP_OK) ∧
    ((lcd_rm68120_set_rotation all_ok 0x80 portrait_handle).ret = ESP_OK ↔ 0x80 >>> 5 < 8) ∧
    (0x80 >>> 5 < 8 →
      (lcd_rm68120_set_rotation all_ok 0x80 portrait_handle).handle.dir = 0x80 >>> 5) :=
  ⟨⟨by decide, rfl⟩,
    (set_rotation_raw_value all_ok portrait_handle 0x80 (by decide) rfl).1,
    (set_rotation_raw_value all_ok portrait_handle 0x80 (by decide) rfl).2.1⟩

/-- C3 (evaluation at the failing input): on the portrait handle (logical size 480 x 800,
direction 0), `lcd_rm68120_set_rotation 4` with a failing MADCTL write returns `ESP_FAIL` and
keeps the stored direction 0, but the logical size has already been overwritten with
800 x 480. -/
theorem set_rotation_failed_write_changes_size :
    (lcd_rm68120_set_rotation (fun _ => ESP_FAIL) 4 portrait_handle).ret = ESP_FAIL ∧
    (lcd_rm68120_set_rotation (fun _ => ESP_FAIL) 4 portrait_handle).trace =
      [TransportOp.write_reg_16b RM68120_MADCTL 0x20] ∧
    (lcd_rm68120_set_rotation (fun _ => ESP_FAIL) 4 portrait_handle).handle.dir =
      portrait_handle.dir ∧
    (portrait_handle.width, portrait_handle.height) = (480, 800) ∧
    ((lcd_rm68120_set_rotation (fun _ => ESP_FAIL) 4 portrait_handle).handle.width,
      (lcd_rm68120_set_rotation (fun _ => ESP_FAIL) 4 portrait_handle).handle.height) =
      (800, 480) := by
  decide

/-! ## Addressing window -/

/-- C4: `lcd_rm68120_set_window` returns `ESP_ERR_INVALID_ARG` exactly when `x1` is not below
the logical width, or `y1` is not below the logical height, or `x0 > x1`, or `y0 > y1`; in
that case it issues no transport call and leaves the handle unchanged. -/
theorem set_window_invalid_arg (off : OffsetUtility) (env : Nat → esp_err_t)
    (x0 y0 x1 y1 : Nat) (g : scr_handle_t) :
    ((lcd_rm68120_set_window off env x0 y0 x1 y1 g).ret = ESP_ERR_INVALID_ARG ↔
      (g.width ≤ x1 ∨ g.height ≤ y1 ∨ x1 < x0 ∨ y1 < y0)) ∧
    ((g.width ≤ x1 ∨ g.height ≤ y1 ∨ x1 < x0 ∨ y1 < y0) →
      (lcd_rm68120_set_window off env x0 y0 x1 y1 g).trace = [] ∧
      (lcd_rm68120_set_window off env x0 y0 x1 y1 g).handle = g) := by
  unfold lcd_rm68120_set_window
  by_cases h1 : x1 < g.width ∧ y1 < g.height
  · by_cases h2 : x0 ≤ x1 ∧ y0 ≤ y1
    · have hc : ¬ (g.width ≤ x1 ∨ g.height ≤ y1 ∨ x1 < x0 ∨ y1 < y0) := by omega
      simp only [h1, h2, hc, not_true_eq_false, if_false, iff_false, false_imp_iff, and_true]
      split <;> simp [ESP_FAIL, ESP_OK, ESP_ERR_INVALID_ARG]
    · have hc : (g.width ≤ x1 ∨ g.height ≤ y1 ∨ x1 < x0 ∨ y1 < y0) := by omega
      simp [h1, h2, hc]
  · have hc : (g.width ≤ x1 ∨ g.height ≤ y1 ∨ x1 < x0 ∨ y1 < y0) := by omega
    simp [h1, hc]

/-- Instance of C4: on the portrait handle the window (0,0)-(480,10) has `x1` equal to the
logical width and is rejected without any transport call. -/
theorem set_window_invalid_arg_witness :
    (portrait_handle.width ≤ 480 ∨ portrait_handle.height ≤ 10 ∨ 480 < 0 ∨ 10 < 0) ∧
    (lcd_rm68120_set_window plain_offset all_ok 0 0 480 10 portrait_handle).trace = [] ∧
    (lcd_rm68120_set_window plain_offset all_ok 0 0 480 10 portrait_handle).handle
      = portrait_handle :=
  ⟨by decide,
    (set_window_invalid_arg plain_offset all_ok 0 0 480 10 portrait_handle).2 (by decide)⟩

/-- The coordinates left by the offset utility are `uint16_t` values. -/
theorem apply_offset_lt (off : OffsetUtility) (g : scr_handle_t) (a b : Nat) (win : Window) :
    (scr_utility_apply_offset off g a b win).x0 < 65536 ∧
    (scr_utility_apply_offset off g a b win).y0 < 65536 ∧
    (scr_utility_apply_offset off g a b win).x1 < 65536 ∧
    (scr_utility_apply_offset off g a b win).y1 < 65536 := by
  simp only [scr_utility_apply_offset]
  omega

/-- C5: for every window that passes the checks, with `W` the coordinates left by the offset
utility, `lcd_rm68120_set_window` issues exactly nine transport calls, in this order: the
register writes (0x2A00, X0>>8), (0x2A01, X0&0xFF), (0x2A02, X1>>8), (0x2A03, X1&0xFF),
(0x2B00, Y0>>8), (0x2B01, Y0&0xFF), (0x2B02, Y1>>8), (0x2B03, Y1&0xFF), then the command
0x2C00, whatever results the calls return; every written value is at most 0xFF and each
high/low pair gives back its coordinate as high * 256 + low. -/
theorem set_window_nine_ops (off : OffsetUtility) (env : Nat → esp_err_t)
    (x0 y0 x1 y1 : Nat) (g : scr_handle_t) (W : Window)
    (hx1 : x1 < g.width) (hy1 : y1 < g.height) (hx : x0 ≤ x1) (hy : y0 ≤ y1)
    (hW : W = scr_utility_apply_offset off g RM68120_RESOLUTION_HOR RM68120_RESOLUTION_VER
      ⟨x0, y0, x1, y1⟩) :
    (lcd_rm68120_set_window off env x0 y0 x1 y1 g).trace =
      [TransportOp.write_reg_16b 0x2A00 (W.x0 >>> 8),
       TransportOp.write_reg_16b 0x2A01 (W.x0 &&& 0xFF),
       TransportOp.write_reg_16b 0x2A02 (W.x1 >>> 8),
       TransportOp.write_reg_16b 0x2A03 (W.x1 &&& 0xFF),
       TransportOp.write_reg_16b 0x2B00 (W.y0 >>> 8),
       TransportOp.write_reg_16b 0x2B01 (W.y0 &&& 0xFF),
       TransportOp.write_reg_16b 0x2B02 (W.y1 >>> 8),
       TransportOp.write_reg_16b 0x2B03 (W.y1 &&& 0xFF),
       TransportOp.write_cmd_16b 0x2C00] ∧
    (lcd_rm68120_set_window off env x0 y0 x1 y1 g).trace.length = 9 ∧
    (∀ reg v, TransportOp.write_reg_16b reg v ∈
        (lcd_rm68120_set_window off env x0 y0 x1 y1 g).trace → v ≤ 0xFF) ∧
    (W.x0 >>> 8) * 256 + (W.x0 &&& 0xFF) = W.x0 ∧
    (W.x1 >>> 8) * 256 + (W.x1 &&& 0xFF) = W.x1 ∧
    (W.y0 >>> 8) * 256 + (W.y0 &&& 0xFF) = W.y0 ∧
    (W.y1 >>> 8) * 256 + (W.y1 &&& 0xFF) = W.y1 := by
  obtain ⟨htr, -, -, -⟩ := set_window_valid_eq off env x0 y0 x1 y1 g hx1 hy1 hx hy
  obtain ⟨b0, b1, b2, b3⟩ := apply_offset_lt off g RM68120_RESOLUTION_HOR
    RM68120_RESOLUTION_VER ⟨x0, y0, x1, y1⟩
  rw [htr, ← hW]
  rw [← hW] at b0 b1 b2 b3
  refine ⟨rfl, rfl, ?_, ?_, ?_, ?_, ?_⟩
  · intro reg v hv
    simp only [window_ops, List.mem_cons, TransportOp.write_reg_16b.injEq, List.mem_singleton,
      List.not_mem_nil, or_false, reduceCtorEq] at hv
    simp only [shr_8, and_0xff] at hv
    omega
  all_goals
    simp only [shr_8, and_0xff]
    omega

/-- Instance of C5: the window (1,2)-(300,700) on the portrait handle. -/
theorem set_window_nine_ops_witness :
    (300 < portrait_handle.width ∧ 700 < portrait_handle.height ∧ 1 ≤ 300 ∧ 2 ≤ 700) ∧
    (lcd_rm68120_set_window plain_offset all_ok 1 2 300 700 portrait_handle).trace =
      [TransportOp.write_reg_16b 0x2A00 0, TransportOp.write_reg_16b 0x2A01 1,
       TransportOp.write_reg_16b 0x2A02 1, TransportOp.write_reg_16b 0x2A03 44,
       TransportOp.write_reg_16b 0x2B00 0, TransportOp.write_reg_16b 0x2B01 2,
       TransportOp.write_reg_16b 0x2B02 2, TransportOp.write_reg_16b 0x2B03 188,
       TransportOp.write_cmd_16b 0x2C00] :=
  ⟨by decide,
    (set_window_nine_ops plain_offset all_ok 1 2 300 700 portrait_handle ⟨1, 2, 300, 700⟩
      (by decide) (by decide) (by decide) (by decide) (by decide)).1⟩

/-- C6: for every window that passes the checks and every assignment of results to the nine
underlying writes, `lcd_rm68120_set_window` returns `ESP_FAIL` if and only if at least one of
the nine results is not `ESP_OK`, and `ESP_OK` if and only if all nine are; the nine calls are
issued whatever the results are (the trace does not depend on the oracle) and the handle is
left as it was. -/
theorem set_window_fail_iff_some_write_fails (off : OffsetUtility) (env : Nat → esp_err_t)
    (x0 y0 x1 y1 : Nat) (g : scr_handle_t)
    (hx1 : x1 < g.width) (hy1 : y1 < g.height) (hx : x0 ≤ x1) (hy : y0 ≤ y1) :
    ((lcd_rm68120_set_window off env x0 y0 x1 y1 g).ret = ESP_FAIL ↔
      ∃ k, k < 9 ∧ env k ≠ ESP_OK) ∧
    ((lcd_rm68120_set_window off env x0 y0 x1 y1 g).ret = ESP_OK ↔
      ∀ k, k < 9 → env k = ESP_OK) ∧
    (lcd_rm68120_set_window off env x0 y0 x1 y1 g).trace.length = 9 ∧
    (∀ env2 : Nat → esp_err_t, (lcd_rm68120_set_window off env2 x0 y0 x1 y1 g).trace =
      (lcd_rm68120_set_window off env x0 y0 x1 y1 g).trace) ∧
    (lcd_rm68120_set_window off env x0 y0 x1 y1 g).handle = g := by
  obtain ⟨htr, hh, hok, hfail⟩ := set_window_valid_eq off env x0 y0 x1 y1 g hx1 hy1 hx hy
  refine ⟨?_, ?_, ?_, ?_, hh⟩
  · constructor
    · intro hr
      by_contra hne
      have hall : ∀ k, k < 9 → env k = ESP_OK := by
        intro k hk
        by_contra hk2
        exact hne ⟨k, hk, hk2⟩
      rw [hok hall] at hr
      revert hr
      decide
    · rintro ⟨k, hk, hne⟩
      exact hfail (fun hall => hne (hall k hk))
  · constructor
    · intro hr
      by_contra hall
      rw [hfail hall] at hr
      revert hr
      decide
    · exact hok
  · rw [htr]
    rfl
  · intro env2
    rw [htr, (set_window_valid_eq off env2 x0 y0 x1 y1 g hx1 hy1 hx hy).1]

/-- Instance of C6: only the sixth write (index 5) fails with `ESP_ERR_INVALID_ARG`; the call
returns `ESP_FAIL`. -/
theorem set_window_fail_iff_some_write_fails_witness :
    (300 < portrait_handle.width ∧ 700 < portrait_handle.height ∧ 1 ≤ 300 ∧ 2 ≤ 700) ∧
    (lcd_rm68120_set_window plain_offset (fun k => if k = 5 then ESP_ERR_INVALID_ARG else ESP_OK)
      1 2 300 700 portrait_handle).ret = ESP_FAIL :=
  ⟨by decide,
    (set_window_fail_iff_some_write_fails plain_offset
      (fun k => if k = 5 then ESP_ERR_INVALID_ARG else ESP_OK) 1 2 300 700 portrait_handle
      (by decide) (by decide) (by decide) (by decide)).1.2 ⟨5, by decide, by decide⟩⟩

/-! ## Drawing -/

/-- A window that fails one of the two checks is rejected before any transport call. -/
theorem set_window_rejected (off : OffsetUtility) (env : Nat → esp_err_t)
    (x0 y0 x1 y1 : Nat) (g : scr_handle_t)
    (h : ¬ (x1 < g.width ∧ y1 < g.height ∧ x0 ≤ x1 ∧ y0 ≤ y1)) :
    lcd_rm68120_set_window off env x0 y0 x1 y1 g = ⟨ESP_ERR_INVALID_ARG, g, []⟩ := by
  unfold lcd_rm68120_set_window
  by_cases h1 : x1 < g.width ∧ y1 < g.height
  · have h2 : ¬ (x0 ≤ x1 ∧ y0 ≤ y1) := fun h2 => h ⟨h1.1, h1.2, h2.1, h2.2⟩
    simp [h1, h2]
  · simp [h1]

/-- Unfolding of `lcd_rm68120_draw_bitmap` on a non-null buffer: the nested window-set sees
the oracle shifted past the bus acquisition. -/
theorem draw_bitmap_some (off : OffsetUtility) (env : Nat → esp_err_t)
    (x y w h : Nat) (buf : List Nat) (g : scr_handle_t) (sw : Outcome)
    (hsw : sw = lcd_rm68120_set_window off (fun k => env (1 + k)) x y
      (to_uint16 ((x : Int) + (w : Int) - 1)) (to_uint16 ((y : Int) + (h : Int) - 1)) g) :
    lcd_rm68120_draw_bitmap off env x y w h (some buf) g =
      if ¬ ESP_OK = sw.ret then ⟨ESP_FAIL, sw.handle, TransportOp.bus_acquire :: sw.trace⟩
      else if ¬ ESP_OK = env (sw.trace.length + 1) then
        ⟨ESP_FAIL, sw.handle, TransportOp.bus_acquire :: (sw.trace ++
          [TransportOp.write (Buffer.pixels buf) ((2 * ((w * h) % 2 ^ 32)) % 2 ^ 32),
           TransportOp.bus_release])⟩
      else
        ⟨ESP_OK, sw.handle, TransportOp.bus_acquire :: (sw.trace ++
          [TransportOp.write (Buffer.pixels buf) ((2 * ((w * h) % 2 ^ 32)) % 2 ^ 32),
           TransportOp.bus_release])⟩ := by
  subst hsw
  simp only [lcd_rm68120_draw_bitmap, LCD_IFACE_ACQUIRE, LCD_IFACE_RELEASE, LCD_WRITE,
    List.nil_append, List.length_singleton, List.length_cons, List.length_append,
    List.singleton_append, List.cons_append, List.append_assoc, List.length_nil, Nat.zero_add]

/-- C7: for every in-bounds `(x, y)` and every 16-bit colour, when all writes succeed
`lcd_rm68120_draw_pixel x y color` returns `ESP_OK` and its transport trace is exactly the
trace of `lcd_rm68120_set_window x y x y` (which itself returns `ESP_OK`) followed by one raw
write of length 2 of the bytes `[color & 0xFF, color >> 8]`, least-significant byte first:
byte0 + 256 * byte1 = color, both bytes at most 0xFF. -/
theorem draw_pixel_trace (off : OffsetUtility) (env : Nat → esp_err_t)
    (x y color : Nat) (g : scr_handle_t)
    (hx : x < g.width) (hy : y < g.height) (hc : color < 65536)
    (hok : ∀ k, k < 10 → env k = ESP_OK) :
    (lcd_rm68120_draw_pixel off env x y color g).ret = ESP_OK ∧
    (lcd_rm68120_draw_pixel off env x y color g).trace =
      (lcd_rm68120_set_window off env x y x y g).trace ++
        [TransportOp.write (Buffer.bytes [color &&& 0xFF, color >>> 8]) 2] ∧
    (lcd_rm68120_set_window off env x y x y g).ret = ESP_OK ∧
    (lcd_rm68120_set_window off env x y x y g).trace.length = 9 ∧
    (color &&& 0xFF) + 256 * (color >>> 8) = color ∧
    (color &&& 0xFF) ≤ 0xFF ∧ (color >>> 8) ≤ 0xFF ∧
    (lcd_rm68120_draw_pixel off env x y color g).handle = g := by
  obtain ⟨htr, hh, hwok, -⟩ :=
    set_window_valid_eq off env x y x y g hx hy (le_refl x) (le_refl y)
  have hsw := hwok (fun k hk => hok k (by omega))
  have hlen : (lcd_rm68120_set_window off env x y x y g).trace.length = 9 := by
    rw [htr]; rfl
  have hb0 : (color &&& 0xff) % 256 = color &&& 0xff := by
    rw [and_0xff]; omega
  have hb1 : (color >>> 8) % 256 = color >>> 8 := by
    rw [shr_8]; omega
  have h9 : env 9 = ESP_OK := hok 9 (by omega)
  refine ⟨?_, ?_, hsw, hlen, ?_, ?_, ?_, ?_⟩
  · simp [lcd_rm68120_draw_pixel, lcd_rm68120_write_ram_data, LCD_WRITE, hsw, hlen, h9]
  · simp [lcd_rm68120_draw_pixel, lcd_rm68120_write_ram_data, LCD_WRITE, hsw, hb0, hb1]
  · rw [and_0xff, shr_8]; omega
  · rw [and_0xff]; omega
  · rw [shr_8]; omega
  · simp [lcd_rm68120_draw_pixel, lcd_rm68120_write_ram_data, LCD_WRITE, hsw, hh]

/-- Instance of C7: `draw_pixel(5, 5, 0xF800)` on the portrait handle sets the window
(5,5)-(5,5) and then writes the two bytes 0x00, 0xF8. -/
theorem draw_pixel_trace_witness :
    (5 < portrait_handle.width ∧ 5 < portrait_handle.height ∧ 0xF800 < 65536 ∧
      ∀ k, k < 10 → all_ok k = ESP_OK) ∧
    (lcd_rm68120_draw_pixel plain_offset all_ok 5 5 0xF800 portrait_handle).ret = ESP_OK ∧
    (lcd_rm68120_draw_pixel plain_offset all_ok 5 5 0xF800 portrait_handle).trace =
      (lcd_rm68120_set_window plain_offset all_ok 5 5 5 5 portrait_handle).trace ++
        [TransportOp.write (Buffer.bytes [0x00, 0xF8]) 2] :=
  ⟨⟨by decide, by decide, by decide, fun _ _ => rfl⟩,
    (draw_pixel_trace plain_offset all_ok 5 5 0xF800 portrait_handle (by decide) (by decide)
      (by decide) (fun _ _ => rfl)).1,
    (draw_pixel_trace plain_offset all_ok 5 5 0xF800 portrait_handle (by decide) (by decide)
      (by decide) (fun _ _ => rfl)).2.1⟩

/-- C8 (evaluation at the failing input): on the portrait handle (480 x 800),
`lcd_rm68120_draw_bitmap 470 5 20 10` with a non-null buffer asks for the window
(470,5)-(489,14); the window-set rejects it, and the call returns `ESP_FAIL` after one
`bus_acquire` and no `bus_release`. The same happens when the window is valid and one of
its nine writes fails. -/
theorem draw_bitmap_window_failure_keeps_bus :
    (lcd_rm68120_draw_bitmap plain_offset all_ok 470 5 20 10 (some (List.replicate 200 0))
      portrait_handle).ret = ESP_FAIL ∧
    (lcd_rm68120_draw_bitmap plain_offset all_ok 470 5 20 10 (some (List.replicate 200 0))
      portrait_handle).trace = [TransportOp.bus_acquire] ∧
    count_acquire (lcd_rm68120_draw_bitmap plain_offset all_ok 470 5 20 10
      (some (List.replicate 200 0)) portrait_handle).trace = 1 ∧
    count_release (lcd_rm68120_draw_bitmap plain_offset all_ok 470 5 20 10
      (some (List.replicate 200 0)) portrait_handle).trace = 0 ∧
    (lcd_rm68120_draw_bitmap plain_offset (fun k => if k = 3 then ESP_FAIL else ESP_OK)
      0 0 2 2 (some [0, 0, 0, 0]) portrait_handle).ret = ESP_FAIL ∧
    count_acquire (lcd_rm68120_draw_bitmap plain_offset
      (fun k => if k = 3 then ESP_FAIL else ESP_OK) 0 0 2 2 (some [0, 0, 0, 0])
      portrait_handle).trace = 1 ∧
    count_release (lcd_rm68120_draw_bitmap plain_offset
      (fun k => if k = 3 then ESP_FAIL else ESP_OK) 0 0 2 2 (some [0, 0, 0, 0])
      portrait_handle).trace = 0 := by
  decide

/-- The bound `size_within_panel` is kept by `lcd_rm68120_set_rotation` whenever the native
size stored in the handle is within the panel (at most 480 x 800, as `lcd_rm68120_init`
checks): the logical sides are only ever copies of the native ones. -/
theorem set_rotation_keeps_size_within_panel (env : Nat → esp_err_t) (dir : Nat)
    (g : scr_handle_t) (hw : g.original_width ≤ RM68120_RESOLUTION_HOR)
    (hh : g.original_height ≤ RM68120_RESOLUTION_VER) (hg : size_within_panel g) :
    size_within_panel (lcd_rm68120_set_rotation env dir g).handle := by
  obtain ⟨gw, gh⟩ := hg
  simp only [RM68120_RESOLUTION_HOR, RM68120_RESOLUTION_VER] at hw hh gw gh
  unfold lcd_rm68120_set_rotation
  simp only []
  generalize (if SCR_DIR_MAX < dir then dir >>> 5 else dir) = d
  by_cases hd : d < 8
  · by_cases h0 : ESP_OK = env 0 <;> interval_cases d <;>
      simp [LCD_WRITE_REG_16B, h0, size_within_panel, RM68120_RESOLUTION_VER] <;> omega
  · simp only [hd, not_false_eq_true, if_true, size_within_panel, RM68120_RESOLUTION_VER]
    omega

/-- C9: for every call of `lcd_rm68120_draw_bitmap x y w h bitmap` that returns `ESP_OK`
(16-bit arguments, logical size within the panel), the buffer is non-null, `w` and `h` are
at least 1, and the transport trace is exactly: one `bus_acquire`, the nine calls of
`lcd_rm68120_set_window x y (x+w-1) (y+h-1)` (which returned `ESP_OK`), one raw write of
`2*w*h` bytes from the bitmap buffer, one `bus_release`, with nothing in between. -/
theorem draw_bitmap_ok_trace (off : OffsetUtility) (env : Nat → esp_err_t)
    (x y w h : Nat) (bitmap : Option (List Nat)) (g : scr_handle_t)
    (hx : x < 65536) (hy : y < 65536) (hw : w < 65536) (hh : h < 65536)
    (hg : size_within_panel g)
    (hret : (lcd_rm68120_draw_bitmap off env x y w h bitmap g).ret = ESP_OK) :
    1 ≤ w ∧ 1 ≤ h ∧
    ∃ buf, bitmap = some buf ∧
      (lcd_rm68120_draw_bitmap off env x y w h bitmap g).trace =
        [TransportOp.bus_acquire] ++
        (lcd_rm68120_set_window off (fun k => env (1 + k)) x y (x + w - 1) (y + h - 1) g).trace
        ++ [TransportOp.write (Buffer.pixels buf) (2 * w * h)]
        ++ [TransportOp.bus_release] ∧
      (lcd_rm68120_set_window off (fun k => env (1 + k)) x y (x + w - 1) (y + h - 1) g).trace.length
        = 9 ∧
      (lcd_rm68120_set_window off (fun k => env (1 + k)) x y (x + w - 1) (y + h - 1) g).ret
        = ESP_OK ∧
      (lcd_rm68120_draw_bitmap off env x y w h bitmap g).handle = g := by
  cases bitmap with
  | none =>
    exfalso
    revert hret
    simp [lcd_rm68120_draw_bitmap, ESP_ERR_INVALID_ARG, ESP_OK]
  | some buf =>
    have hne : ESP_FAIL ≠ ESP_OK := by decide
    have e := draw_bitmap_some off env x y w h buf g _ rfl
    rw [e] at hret ⊢
    by_cases hv : to_uint16 ((x : Int) + (w : Int) - 1) < g.width ∧
        to_uint16 ((y : Int) + (h : Int) - 1) < g.height ∧
        x ≤ to_uint16 ((x : Int) + (w : Int) - 1) ∧ y ≤ to_uint16 ((y : Int) + (h : Int) - 1)
    · obtain ⟨h1, h2, h3, h4⟩ := hv
      obtain ⟨gw, gh⟩ := hg
      simp only [RM68120_RESOLUTION_VER] at gw gh
      have hX : to_uint16 ((x : Int) + (w : Int) - 1) = x + w - 1 ∧ 1 ≤ w ∧ x + w ≤ g.width := by
        unfold to_uint16 at h1 h3 ⊢
        omega
      have hY : to_uint16 ((y : Int) + (h : Int) - 1) = y + h - 1 ∧ 1 ≤ h ∧ y + h ≤ g.height := by
        unfold to_uint16 at h2 h4 ⊢
        omega
      clear e
      rw [hX.1] at h1 h3
      rw [hY.1] at h2 h4
      rw [hX.1, hY.1] at hret ⊢
      obtain ⟨htr, hhd, hwok, hwfail⟩ :=
        set_window_valid_eq off (fun k => env (1 + k)) x y (x + w - 1) (y + h - 1) g h1 h2 h3 h4
      have hlen : (lcd_rm68120_set_window off (fun k => env (1 + k)) x y (x + w - 1)
          (y + h - 1) g).trace.length = 9 := by
        rw [htr]; rfl
      have hmul : w * h ≤ 800 * 800 := Nat.mul_le_mul (by omega) (by omega)
      have hbytes : (2 * ((w * h) % 2 ^ 32)) % 2 ^ 32 = 2 * w * h := by
        rw [Nat.mod_eq_of_lt (by omega), Nat.mod_eq_of_lt (by omega), Nat.mul_assoc]
      by_cases c1 : ESP_OK = (lcd_rm68120_set_window off (fun k => env (1 + k)) x y (x + w - 1)
          (y + h - 1) g).ret
      · by_cases c2 : ESP_OK = env ((lcd_rm68120_set_window off (fun k => env (1 + k)) x y
            (x + w - 1) (y + h - 1) g).trace.length + 1)
        · refine ⟨hX.2.1, hY.2.1, buf, rfl, ?_, hlen, c1.symm, ?_⟩
          · rw [if_neg (not_not.mpr c1), if_neg (not_not.mpr c2)]
            simp only [hbytes, List.singleton_append, List.cons_append, List.append_assoc,
              List.nil_append]
          · rw [if_neg (not_not.mpr c1), if_neg (not_not.mpr c2)]
            exact hhd
        · rw [if_neg (not_not.mpr c1), if_pos c2] at hret
          exact absurd hret hne
      · rw [if_pos c1] at hret
        exact absurd hret hne
    · have hrej : ¬ ESP_OK = (Outcome.mk ESP_ERR_INVALID_ARG g []).ret := by
        show ¬ ESP_OK = ESP_ERR_INVALID_ARG
        decide
      rw [set_window_rejected off _ x y _ _ g hv, if_pos hrej] at hret
      exact absurd hret hne

/-- Instance of C9: the full-screen bitmap 480 x 800 at (0,0) on the portrait handle; the raw
write carries 768000 bytes. -/
theorem draw_bitmap_ok_trace_witness :
    ((0 < 65536 ∧ 480 < 65536 ∧ 800 < 65536) ∧ size_within_panel portrait_handle ∧
      (lcd_rm68120_draw_bitmap plain_offset all_ok 0 0 480 800 (some []) portrait_handle).ret
        = ESP_OK) ∧
    ∃ buf, some [] = some buf ∧
      (lcd_rm68120_draw_bitmap plain_offset all_ok 0 0 480 800 (some []) portrait_handle).trace =
        [TransportOp.bus_acquire] ++
        (lcd_rm68120_set_window plain_offset (fun k => all_ok (1 + k)) 0 0 (0 + 480 - 1)
          (0 + 800 - 1) portrait_handle).trace
        ++ [TransportOp.write (Buffer.pixels buf) (2 * 480 * 800)]
        ++ [TransportOp.bus_release] ∧
      (lcd_rm68120_set_window plain_offset (fun k => all_ok (1 + k)) 0 0 (0 + 480 - 1)
        (0 + 800 - 1) portrait_handle).trace.length = 9 ∧
      (lcd_rm68120_set_window plain_offset (fun k => all_ok (1 + k)) 0 0 (0 + 480 - 1)
        (0 + 800 - 1) portrait_handle).ret = ESP_OK ∧
      (lcd_rm68120_draw_bitmap plain_offset all_ok 0 0 480 800 (some []) portrait_handle).handle
        = portrait_handle :=
  ⟨⟨⟨by decide, by decide, by decide⟩, by decide, by decide⟩,
    (draw_bitmap_ok_trace plain_offset all_ok 0 0 480 800 (some []) portrait_handle
      (by decide) (by decide) (by decide) (by decide) (by decide) (by decide)).2.2⟩

/-- C10: with a null pixel buffer `lcd_rm68120_draw_bitmap` returns `ESP_ERR_INVALID_ARG`,
issues no transport call at all and leaves the handle unchanged, for every handle, every
`(x, y, w, h)` and every oracle. -/
theorem draw_bitmap_null_buffer (off : OffsetUtility) (env : Nat → esp_err_t)
    (x y w h : Nat) (g : scr_handle_t) :
    (lcd_rm68120_draw_bitmap off env x y w h none g).ret = ESP_ERR_INVALID_ARG ∧
    (lcd_rm68120_draw_bitmap off env x y w h none g).trace = [] ∧
    count_acquire (lcd_rm68120_draw_bitmap off env x y w h none g).trace = 0 ∧
    count_release (lcd_rm68120_draw_bitmap off env x y w h none g).trace = 0 ∧
    (lcd_rm68120_draw_bitmap off env x y w h none g).handle = g :=
  ⟨rfl, rfl, rfl, rfl, rfl⟩

/-! ## Initialisation -/

set_option maxRecDepth 100000 in
theorem init_reg_seq_length : lcd_rm68120_init_reg_seq.length = 385 := rfl

/-- Issuing a list of command and register writes through their macros, discarding the
results, appends exactly that list to the trace. -/
theorem issue_all_eq (env : Nat → esp_err_t) (l : List TransportOp) :
    (∀ op, op ∈ l → is_cmd_or_reg op = true) →
    ∀ tr : List TransportOp,
      l.foldl
        (fun tr op =>
          match op with
          | TransportOp.write_cmd_16b cmd => (LCD_WRITE_CMD_16B env tr cmd).2
          | TransportOp.write_reg_16b reg data => (LCD_WRITE_REG_16B env tr reg data).2
          | _ => tr)
        tr = tr ++ l := by
  induction l with
  | nil => intro _ tr; simp
  | cons op rest ih =>
    intro hall tr
    have hop := hall op (List.mem_cons_self op rest)
    have hrest : ∀ o, o ∈ rest → is_cmd_or_reg o = true :=
      fun o ho => hall o (List.mem_cons_of_mem op ho)
    rw [List.foldl_cons, ih hrest]
    cases op <;> simp [is_cmd_or_reg, LCD_WRITE_CMD_16B, LCD_WRITE_REG_16B] at hop ⊢

set_option maxRecDepth 100000 in
theorem init_reg_seq_all_writes :
    ∀ op, op ∈ lcd_rm68120_init_reg_seq → is_cmd_or_reg op = true := by
  have h : lcd_rm68120_init_reg_seq.all is_cmd_or_reg = true := rfl
  exact List.all_eq_true.mp h

/-- The function `lcd_rm68120_init_reg` issues its whole fixed sequence, whatever the calls
return. -/
theorem init_reg_eq (env : Nat → esp_err_t) (tr : List TransportOp) :
    lcd_rm68120_init_reg env tr = tr ++ lcd_rm68120_init_reg_seq :=
  issue_all_eq env lcd_rm68120_init_reg_seq init_reg_seq_all_writes tr


/-- The three outcomes of `lcd_rm68120_set_rotation`, by the normalised direction and the
result of the MADCTL write. -/
theorem set_rotation_cases (env : Nat → esp_err_t) (dir : Nat) (g : scr_handle_t) :
    (¬ normalized_dir dir < 8 →
      lcd_rm68120_set_rotation env dir g = ⟨ESP_ERR_INVALID_ARG, g, []⟩) ∧
    (normalized_dir dir < 8 → env 0 = ESP_OK →
      lcd_rm68120_set_rotation env dir g =
        ⟨ESP_OK,
          { g with
            width := if 4 ≤ normalized_dir dir then g.original_height else g.original_width,
            height := if 4 ≤ normalized_dir dir then g.original_width else g.original_height,
            dir := normalized_dir dir },
          [TransportOp.write_reg_16b RM68120_MADCTL (documented_madctl (normalized_dir dir))]⟩) ∧
    (normalized_dir dir < 8 → env 0 ≠ ESP_OK →
      (lcd_rm68120_set_rotation env dir g).ret = ESP_FAIL ∧
      (lcd_rm68120_set_rotation env dir g).trace =
        [TransportOp.write_reg_16b RM68120_MADCTL (documented_madctl (normalized_dir dir))]) := by
  unfold lcd_rm68120_set_rotation normalized_dir
  simp only []
  generalize (if SCR_DIR_MAX < dir then dir >>> 5 else dir) = d
  refine ⟨?_, ?_, ?_⟩
  · intro hd
    simp [hd]
  · intro hd hok
    interval_cases d <;>
      simp [LCD_WRITE_REG_16B, hok, ESP_OK, RM68120_MADCTL, MADCTL_MY, MADCTL_MX, MADCTL_MV,
        MADCTL_RGB, documented_madctl]
  · intro hd hne
    have hne2 : ¬ ESP_OK = env 0 := fun h => hne h.symm
    interval_cases d <;>
      simp [LCD_WRITE_REG_16B, hne2, RM68120_MADCTL, MADCTL_MY, MADCTL_MX, MADCTL_MV,
        MADCTL_RGB, documented_madctl]

set_option maxRecDepth 100000 in
/-- On a configuration that passes the three checks, `lcd_rm68120_init` stores the native
size and offsets, sends the whole register-initialisation sequence, calls
`lcd_rm68120_set_rotation` (whose MADCTL write is transport call number 385) and returns
`ESP_OK` or `ESP_FAIL` according to its result. -/
theorem init_valid (env : Nat → esp_err_t) (conf : scr_controller_config_t)
    (drv : scr_interface_driver_t) (g : scr_handle_t) (rot : Outcome)
    (hw : conf.width ≤ RM68120_RESOLUTION_HOR) (hh : conf.height ≤ RM68120_RESOLUTION_VER)
    (hdrv : conf.interface_drv = some drv) (hfull : fully_populated drv)
    (hrot : rot = lcd_rm68120_set_rotation (fun k => env (385 + k)) conf.rotate
      { g with original_width := conf.width, original_height := conf.height,
               offset_hor := conf.offset_hor, offset_ver := conf.offset_ver }) :
    ∃ r, lcd_rm68120_init env (some conf) g = some r ∧
      r.ret = (if ESP_OK = rot.ret then ESP_OK else ESP_FAIL) ∧
      r.handle = rot.handle ∧
      r.trace = lcd_rm68120_init_reg_seq ++ rot.trace := by
  obtain ⟨f1, f2, f3, f4, f5, f6⟩ := hfull
  subst hrot
  by_cases hc : (lcd_rm68120_set_rotation (fun k => env (385 + k)) conf.rotate
      { g with original_width := conf.width, original_height := conf.height,
               offset_hor := conf.offset_hor, offset_ver := conf.offset_ver }).ret = ESP_OK
  · simp only [lcd_rm68120_init, hw, hh, hdrv, f1, f2, f3, f4, f5, f6, init_reg_eq,
      List.nil_append, init_reg_seq_length, not_true_eq_false, if_false, and_self, hc, if_true]
    exact ⟨_, rfl, rfl, rfl, rfl⟩
  · have hc2 : ¬ ESP_OK = (lcd_rm68120_set_rotation (fun k => env (385 + k)) conf.rotate
        { g with original_width := conf.width, original_height := conf.height,
                 offset_hor := conf.offset_hor, offset_ver := conf.offset_ver }).ret :=
      fun h => hc h.symm
    simp only [lcd_rm68120_init, hw, hh, hdrv, f1, f2, f3, f4, f5, f6, init_reg_eq,
      List.nil_append, init_reg_seq_length, not_true_eq_false, if_false, and_self, hc2,
      not_false_eq_true, if_true]
    exact ⟨_, rfl, rfl, rfl, rfl⟩

/-- A configuration whose size exceeds the panel, or whose capability set lacks an operation,
is rejected by `lcd_rm68120_init` before any transport or GPIO call, the handle untouched. -/
theorem init_rejects (env : Nat → esp_err_t) (conf : scr_controller_config_t)
    (g : scr_handle_t) :
    ((480 < conf.width ∨ 800 < conf.height) →
      lcd_rm68120_init env (some conf) g = some ⟨ESP_ERR_INVALID_ARG, g, [], []⟩) ∧
    (∀ drv, conf.interface_drv = some drv → ¬ fully_populated drv →
      lcd_rm68120_init env (some conf) g = some ⟨ESP_ERR_INVALID_ARG, g, [], []⟩) := by
  constructor
  · intro h
    by_cases hw : conf.width ≤ RM68120_RESOLUTION_HOR
    · have hh : ¬ conf.height ≤ RM68120_RESOLUTION_VER := by
        simp only [RM68120_RESOLUTION_HOR, RM68120_RESOLUTION_VER] at hw ⊢
        omega
      simp only [lcd_rm68120_init, hw, hh, not_true_eq_false, not_false_eq_true, if_true,
        if_false]
    · simp only [lcd_rm68120_init, hw, not_false_eq_true, if_true]
  · intro drv hdrv hfull
    by_cases hw : conf.width ≤ RM68120_RESOLUTION_HOR
    · by_cases hh : conf.height ≤ RM68120_RESOLUTION_VER
      · have hf : ¬ (drv.write_command = true ∧ drv.write_data = true ∧ drv.write = true ∧
            drv.read = true ∧ drv.bus_acquire = true ∧ drv.bus_release = true) := hfull
        simp only [lcd_rm68120_init, hw, hh, hdrv, hf, not_true_eq_false, not_false_eq_true,
          if_true, if_false]
      · simp only [lcd_rm68120_init, hw, hh, not_true_eq_false, not_false_eq_true, if_true,
          if_false]
    · simp only [lcd_rm68120_init, hw, not_false_eq_true, if_true]

/-- Every defined outcome of `lcd_rm68120_init` on a non-null configuration is either the
rejection of the configuration or the outcome described by `init_valid`. -/
theorem init_some_cases (env : Nat → esp_err_t) (conf : scr_controller_config_t)
    (g : scr_handle_t) (r : InitOutcome) (rot : Outcome)
    (hrot : rot = lcd_rm68120_set_rotation (fun k => env (385 + k)) conf.rotate
      { g with original_width := conf.width, original_height := conf.height,
               offset_hor := conf.offset_hor, offset_ver := conf.offset_ver })
    (h : lcd_rm68120_init env (some conf) g = some r) :
    r = ⟨ESP_ERR_INVALID_ARG, g, [], []⟩ ∨
    (conf.width ≤ 480 ∧ conf.height ≤ 800 ∧
      r.ret = (if ESP_OK = rot.ret then ESP_OK else ESP_FAIL) ∧
      r.handle = rot.handle ∧ r.trace = lcd_rm68120_init_reg_seq ++ rot.trace) := by
  by_cases hd : 480 < conf.width ∨ 800 < conf.height
  · left
    rw [(init_rejects env conf g).1 hd] at h
    exact (Option.some.inj h).symm
  · have hw : conf.width ≤ RM68120_RESOLUTION_HOR := by
      simp only [RM68120_RESOLUTION_HOR]; omega
    have hh : conf.height ≤ RM68120_RESOLUTION_VER := by
      simp only [RM68120_RESOLUTION_VER]; omega
    cases hi : conf.interface_drv with
    | none =>
      exfalso
      simp only [lcd_rm68120_init, hw, hh, hi, not_true_eq_false, if_false] at h
      exact absurd h (by simp)
    | some drv =>
      by_cases hfull : fully_populated drv
      · right
        obtain ⟨r2, e, h1, h2, h3⟩ := init_valid env conf drv g rot hw hh hi hfull hrot
        rw [e] at h
        have hr : r2 = r := Option.some.inj h
        subst hr
        exact ⟨by simpa [RM68120_RESOLUTION_HOR] using hw,
          by simpa [RM68120_RESOLUTION_VER] using hh, h1, h2, h3⟩
      · left
        rw [(init_rejects env conf g).2 drv hi hfull] at h
        exact (Option.some.inj h).symm

/-- The bound `size_within_panel` is kept by `lcd_rm68120_init`; the cleared handle has it. -/
theorem init_keeps_size_within_panel (env : Nat → esp_err_t) (conf : scr_controller_config_t)
    (g : scr_handle_t) (r : InitOutcome) (hg : size_within_panel g)
    (h : lcd_rm68120_init env (some conf) g = some r) :
    size_within_panel r.handle ∧ size_within_panel cleared_handle := by
  refine ⟨?_, by decide⟩
  rcases init_some_cases env conf g r _ rfl h with hr | ⟨hw, hh, -, hhd, -⟩
  · rw [hr]
    exact hg
  · rw [hhd]
    exact set_rotation_keeps_size_within_panel _ _ _ hw hh hg

/-- C11 as stated fails: on the valid 480 x 800 configuration with direction 0, when the
software-reset command and every other call of `lcd_rm68120_init_reg` return `ESP_FAIL`
(and the closing MADCTL write succeeds), `lcd_rm68120_init` does not abort: it issues all
386 transport calls and returns `ESP_OK`. -/
theorem init_ignores_init_reg_failures :
    init_reg_fails 0 = ESP_FAIL ∧ init_reg_fails 384 = ESP_FAIL ∧
    ∃ r, lcd_rm68120_init init_reg_fails (some (panel_config 0)) cleared_handle = some r ∧
      r.ret = ESP_OK ∧
      r.trace = lcd_rm68120_init_reg_seq ++ [TransportOp.write_reg_16b RM68120_MADCTL 0] := by
  refine ⟨by decide, by decide, ?_⟩
  obtain ⟨r, e, h1, -, h3⟩ := init_valid init_reg_fails (panel_config 0) full_interface
    cleared_handle _ (by decide) (by decide) rfl (by decide) rfl
  have hrot := (set_rotation_cases (fun k => init_reg_fails (385 + k)) (panel_config 0).rotate
    { cleared_handle with original_width := (panel_config 0).width,
                          original_height := (panel_config 0).height,
                          offset_hor := (panel_config 0).offset_hor,
                          offset_ver := (panel_config 0).offset_ver }).2.1 (by decide) (by decide)
  rw [hrot] at h1 h3
  exact ⟨r, e, h1, h3⟩

/-- C11 (amended): for every configuration that passes the checks of `lcd_rm68120_init`
(size within 480 x 800, capability set fully populated) and asks for a valid direction,
`lcd_rm68120_init` sends the whole sequence of `lcd_rm68120_init_reg` followed by the MADCTL
write of `lcd_rm68120_set_rotation`, whatever the calls return; it returns `ESP_FAIL` exactly
when that MADCTL write (transport call 385) fails and `ESP_OK` otherwise. The results of the
calls of `lcd_rm68120_init_reg` have no influence. -/
theorem init_fails_iff_rotation_write_fails (env : Nat → esp_err_t)
    (conf : scr_controller_config_t) (drv : scr_interface_driver_t) (g : scr_handle_t)
    (hw : conf.width ≤ 480) (hh : conf.height ≤ 800)
    (hdrv : conf.interface_drv = some drv) (hfull : fully_populated drv)
    (hd : normalized_dir conf.rotate < 8) :
    ∃ r, lcd_rm68120_init env (some conf) g = some r ∧
      r.trace = lcd_rm68120_init_reg_seq ++
        [TransportOp.write_reg_16b RM68120_MADCTL (documented_madctl (normalized_dir conf.rotate))] ∧
      r.trace.length = 386 ∧
      (r.ret = ESP_FAIL ↔ env 385 ≠ ESP_OK) ∧
      (r.ret = ESP_OK ↔ env 385 = ESP_OK) := by
  obtain ⟨r, e, h1, -, h3⟩ := init_valid env conf drv g _ hw hh hdrv hfull rfl
  have hc := set_rotation_cases (fun k => env (385 + k)) conf.rotate
    { g with original_width := conf.width, original_height := conf.height,
             offset_hor := conf.offset_hor, offset_ver := conf.offset_ver }
  have hne : ESP_FAIL ≠ ESP_OK := by decide
  by_cases hok : env 385 = ESP_OK
  · have hrot := hc.2.1 hd hok
    rw [hrot] at h1 h3
    have hret : r.ret = ESP_OK := h1
    refine ⟨r, e, h3, ?_, ?_, ?_⟩
    · rw [h3, List.length_append, init_reg_seq_length]; rfl
    · rw [hret]
      exact ⟨fun h => absurd h.symm hne, fun h => absurd hok h⟩
    · rw [hret]
      exact ⟨fun _ => hok, fun _ => rfl⟩
  · obtain ⟨hr, ht⟩ := hc.2.2 hd hok
    rw [ht] at h3
    rw [hr] at h1
    have hret : r.ret = ESP_FAIL := h1
    refine ⟨r, e, h3, ?_, ?_, ?_⟩
    · rw [h3, List.length_append, init_reg_seq_length]; rfl
    · rw [hret]
      exact ⟨fun _ => hok, fun _ => rfl⟩
    · rw [hret]
      exact ⟨fun h => absurd h hne, fun h => absurd h hok⟩

/-- Instance of amended C11: on the 480 x 800 configuration with direction 0, when only the
closing MADCTL write fails, `lcd_rm68120_init` returns `ESP_FAIL`. -/
theorem init_fails_iff_rotation_write_fails_witness :
    ((panel_config 0).width ≤ 480 ∧ (panel_config 0).height ≤ 800 ∧
      (panel_config 0).interface_drv = some full_interface ∧ fully_populated full_interface ∧
      normalized_dir (panel_config 0).rotate < 8 ∧ madctl_fails 385 ≠ ESP_OK) ∧
    ∃ r, lcd_rm68120_init madctl_fails (some (panel_config 0)) cleared_handle = some r ∧
      r.ret = ESP_FAIL := by
  refine ⟨⟨by decide, by decide, rfl, by decide, by decide, by decide⟩, ?_⟩
  obtain ⟨r, e, -, -, hf, -⟩ := init_fails_iff_rotation_write_fails madctl_fails (panel_config 0)
    full_interface cleared_handle (by decide) (by decide) rfl (by decide) (by decide)
  exact ⟨r, e, hf.2 (by decide)⟩

/-- C12: for every non-null configuration `lcd_rm68120_init` returns `ESP_ERR_INVALID_ARG`,
issues no transport call and no GPIO call and leaves the handle unchanged whenever the width
exceeds 480, or the height exceeds 800, or one of the six operations of the supplied
capability set is absent; with width at most 480, height at most 800 and all six operations
present it does not return `ESP_ERR_INVALID_ARG` (it returns `ESP_OK` or `ESP_FAIL`). -/
theorem init_invalid_arg (env : Nat → esp_err_t) (conf : scr_controller_config_t)
    (g : scr_handle_t) :
    ((480 < conf.width ∨ 800 < conf.height) →
      lcd_rm68120_init env (some conf) g = some ⟨ESP_ERR_INVALID_ARG, g, [], []⟩) ∧
    (∀ drv, conf.interface_drv = some drv →
      (drv.write_command = false ∨ drv.write_data = false ∨ drv.write = false ∨
        drv.read = false ∨ drv.bus_acquire = false ∨ drv.bus_release = false) →
      lcd_rm68120_init env (some conf) g = some ⟨ESP_ERR_INVALID_ARG, g, [], []⟩) ∧
    (∀ drv, conf.interface_drv = some drv → fully_populated drv →
      conf.width ≤ 480 → conf.height ≤ 800 →
      ∃ r, lcd_rm68120_init env (some conf) g = some r ∧ r.ret ≠ ESP_ERR_INVALID_ARG ∧
        (r.ret = ESP_OK ∨ r.ret = ESP_FAIL)) := by
  refine ⟨(init_rejects env conf g).1, ?_, ?_⟩
  · intro drv hdrv habs
    apply (init_rejects env conf g).2 drv hdrv
    rintro ⟨f1, f2, f3, f4, f5, f6⟩
    simp [f1, f2, f3, f4, f5, f6] at habs
  · intro drv hdrv hfull hw hh
    obtain ⟨r, e, h1, -, -⟩ := init_valid env conf drv g _ hw hh hdrv hfull rfl
    refine ⟨r, e, ?_, ?_⟩
    · rw [h1]
      split <;> decide
    · rw [h1]
      split
      · exact Or.inl rfl
      · exact Or.inr rfl

/-- Instance of C12: a configuration of width 481 and one without `bus_release` are rejected;
the 480 x 800 configuration with a full capability set is not. -/
theorem init_invalid_arg_witness :
    (480 < ({ panel_config 0 with width := 481 } : scr_controller_config_t).width ∧
      lcd_rm68120_init all_ok (some { panel_config 0 with width := 481 }) portrait_handle =
        some ⟨ESP_ERR_INVALID_ARG, portrait_handle, [], []⟩) ∧
    lcd_rm68120_init all_ok
      (some { panel_config 0 with
        interface_drv := some { full_interface with bus_release := false } })
      portrait_handle = some ⟨ESP_ERR_INVALID_ARG, portrait_handle, [], []⟩ ∧
    ∃ r, lcd_rm68120_init all_ok (some (panel_config 0)) portrait_handle = some r ∧
      r.ret ≠ ESP_ERR_INVALID_ARG :=
  ⟨⟨by decide,
      (init_invalid_arg all_ok { panel_config 0 with width := 481 } portrait_handle).1
        (Or.inl (by decide))⟩,
    (init_invalid_arg all_ok
      { panel_config 0 with interface_drv := some { full_interface with bus_release := false } }
      portrait_handle).2.1 _ rfl (by decide),
    let ⟨r, e, h, _⟩ := (init_invalid_arg all_ok (panel_config 0) portrait_handle).2.2
      full_interface rfl (by decide) (by decide) (by decide)
    ⟨r, e, h⟩⟩

/-! ## Validation order, reported information, accepted rectangles -/

/-- For 16-bit arguments and a 16-bit logical size, the window that `lcd_rm68120_draw_bitmap`
hands to `lcd_rm68120_set_window` passes the two checks exactly when the rectangle is
non-empty and lies inside the logical screen; the truncation to `uint16_t` then changes
nothing. -/
theorem bitmap_window_valid_iff (x y w h : Nat) (g : scr_handle_t)
    (hx : x < 65536) (hy : y < 65536) (hw : w < 65536) (hh : h < 65536)
    (hgw : g.width < 65536) (hgh : g.height < 65536) :
    ((to_uint16 ((x : Int) + (w : Int) - 1) < g.width ∧
        to_uint16 ((y : Int) + (h : Int) - 1) < g.height ∧
        x ≤ to_uint16 ((x : Int) + (w : Int) - 1) ∧
        y ≤ to_uint16 ((y : Int) + (h : Int) - 1)) ↔
      (1 ≤ w ∧ 1 ≤ h ∧ x + w ≤ g.width ∧ y + h ≤ g.height)) ∧
    (1 ≤ w → x + w ≤ g.width → to_uint16 ((x : Int) + (w : Int) - 1) = x + w - 1) ∧
    (1 ≤ h → y + h ≤ g.height → to_uint16 ((y : Int) + (h : Int) - 1) = y + h - 1) := by
  unfold to_uint16
  refine ⟨⟨?_, ?_⟩, ?_, ?_⟩
  · rintro ⟨h1, h2, h3, h4⟩
    omega
  · rintro ⟨h1, h2, h3, h4⟩
    omega
  · intro h1 h2
    omega
  · intro h1 h2
    omega

/-- When the window handed over by `lcd_rm68120_draw_bitmap` fails a check, the call returns
`ESP_FAIL` after the bus acquisition alone; when the call returns `ESP_OK`, the window passed
both checks. -/
theorem draw_bitmap_window_gate (off : OffsetUtility) (env : Nat → esp_err_t)
    (x y w h : Nat) (buf : List Nat) (g : scr_handle_t) :
    (¬ (to_uint16 ((x : Int) + (w : Int) - 1) < g.width ∧
        to_uint16 ((y : Int) + (h : Int) - 1) < g.height ∧
        x ≤ to_uint16 ((x : Int) + (w : Int) - 1) ∧
        y ≤ to_uint16 ((y : Int) + (h : Int) - 1)) →
      lcd_rm68120_draw_bitmap off env x y w h (some buf) g =
        ⟨ESP_FAIL, g, [TransportOp.bus_acquire]⟩) ∧
    ((lcd_rm68120_draw_bitmap off env x y w h (some buf) g).ret = ESP_OK →
      (to_uint16 ((x : Int) + (w : Int) - 1) < g.width ∧
        to_uint16 ((y : Int) + (h : Int) - 1) < g.height ∧
        x ≤ to_uint16 ((x : Int) + (w : Int) - 1) ∧
        y ≤ to_uint16 ((y : Int) + (h : Int) - 1)) ∧
      TransportOp.write (Buffer.pixels buf) ((2 * ((w * h) % 2 ^ 32)) % 2 ^ 32) ∈
        (lcd_rm68120_draw_bitmap off env x y w h (some buf) g).trace) := by
  have hrej : ¬ ESP_OK = (Outcome.mk ESP_ERR_INVALID_ARG g []).ret := by
    show ¬ ESP_OK = ESP_ERR_INVALID_ARG
    decide
  have hne : ESP_FAIL ≠ ESP_OK := by decide
  have e := draw_bitmap_some off env x y w h buf g _ rfl
  constructor
  · intro hv
    rw [e, set_window_rejected off _ x y _ _ g hv, if_pos hrej]
  · intro hret
    by_cases hv : (to_uint16 ((x : Int) + (w : Int) - 1) < g.width ∧
        to_uint16 ((y : Int) + (h : Int) - 1) < g.height ∧
        x ≤ to_uint16 ((x : Int) + (w : Int) - 1) ∧
        y ≤ to_uint16 ((y : Int) + (h : Int) - 1))
    · refine ⟨hv, ?_⟩
      rw [e] at hret ⊢
      split at hret
      · exact absurd hret hne
      · rename_i c1
        rw [if_neg c1]
        split at hret
        · exact absurd hret hne
        · rename_i c2
          rw [if_neg c2]
          simp
    · rw [e, set_window_rejected off _ x y _ _ g hv, if_pos hrej] at hret
      exact absurd hret hne

/-- C14: for every configuration on which `lcd_rm68120_init` returns `ESP_OK`, the requested
direction normalises to a direction `d` of the 8-way enum (`rotate` itself, or `rotate >> 5`
when `rotate` is above the canonical set), and a following `lcd_rm68120_get_info` with a
non-null output returns `ESP_OK`, issues no transport call, leaves the handle alone and
reports `dir = d`, the size (config height, config width) for `d` in 4..7 and
(config width, config height) otherwise, the name "RM68120", the colour format RGB565 and
16 bits per pixel. With a null output `lcd_rm68120_get_info` returns
`ESP_ERR_INVALID_ARG` and never modifies the handle. -/
theorem get_info_after_init (env : Nat → esp_err_t) (conf : scr_controller_config_t)
    (g : scr_handle_t) (r : InitOutcome) (info : scr_info_t)
    (hinit : lcd_rm68120_init env (some conf) g = some r) (hok : r.ret = ESP_OK) :
    normalized_dir conf.rotate < 8 ∧
    normalized_dir conf.rotate = (if 7 < conf.rotate then conf.rotate >>> 5 else conf.rotate) ∧
    lcd_rm68120_get_info (some info) r.handle =
      (⟨ESP_OK, r.handle, []⟩,
        some { width := if 4 ≤ normalized_dir conf.rotate then conf.height else conf.width,
               height := if 4 ≤ normalized_dir conf.rotate then conf.width else conf.height,
               dir := normalized_dir conf.rotate,
               name := "RM68120",
               color_type := scr_color_type_t.SCR_COLOR_TYPE_RGB565,
               bpp := 16 }) ∧
    (∀ g2 : scr_handle_t,
      lcd_rm68120_get_info none g2 = (⟨ESP_ERR_INVALID_ARG, g2, []⟩, none)) := by
  have hinv : ESP_ERR_INVALID_ARG ≠ ESP_OK := by decide
  have hne : ESP_FAIL ≠ ESP_OK := by decide
  have hc := set_rotation_cases (fun k => env (385 + k)) conf.rotate
    { g with original_width := conf.width, original_height := conf.height,
             offset_hor := conf.offset_hor, offset_ver := conf.offset_ver }
  rcases init_some_cases env conf g r _ rfl hinit with hr | ⟨-, -, hret, hhd, -⟩
  · rw [hr] at hok
    exact absurd hok hinv
  · have hd : normalized_dir conf.rotate < 8 := by
      by_contra hd
      rw [hc.1 hd, hok] at hret
      exact absurd hret (by show ¬ ESP_OK = ESP_FAIL; decide)
    have h385 : env 385 = ESP_OK := by
      by_contra h385
      rw [(hc.2.2 hd h385).1, hok] at hret
      exact absurd hret (by show ¬ ESP_OK = ESP_FAIL; decide)
    rw [hc.2.1 hd h385] at hhd
    refine ⟨hd, ?_, ?_, fun _ => rfl⟩
    · rfl
    · rw [hhd]
      rfl

/-- Instance of C14: after a successful `lcd_rm68120_init` of the 480 x 800 panel with the
packed direction 0xC0 (direction 6, axes swapped), `lcd_rm68120_get_info` reports
800 x 480, direction 6, "RM68120", RGB565, 16 bits per pixel. -/
theorem get_info_after_init_witness :
    ∃ r, (lcd_rm68120_init all_ok (some (panel_config 0xC0)) cleared_handle = some r ∧
        r.ret = ESP_OK) ∧
      lcd_rm68120_get_info (some blank_info) r.handle =
        (⟨ESP_OK, r.handle, []⟩,
          some { width := 800, height := 480, dir := 6, name := "RM68120",
                 color_type := scr_color_type_t.SCR_COLOR_TYPE_RGB565, bpp := 16 }) := by
  obtain ⟨r, e, h1, -, -⟩ := init_valid all_ok (panel_config 0xC0) full_interface
    cleared_handle _ (by decide) (by decide) rfl (by decide) rfl
  have hrot := (set_rotation_cases (fun k => all_ok (385 + k)) (panel_config 0xC0).rotate
    { cleared_handle with original_width := (panel_config 0xC0).width,
                          original_height := (panel_config 0xC0).height,
                          offset_hor := (panel_config 0xC0).offset_hor,
                          offset_ver := (panel_config 0xC0).offset_ver }).2.1
    (by decide) rfl
  rw [hrot] at h1
  have hok : r.ret = ESP_OK := h1
  exact ⟨r, ⟨e, hok⟩,
    (get_info_after_init all_ok (panel_config 0xC0) cleared_handle r blank_info e hok).2.2.1⟩

/-- C15: for 16-bit `x, y, w, h`, a non-null bitmap and a handle whose logical size is within
the panel, `lcd_rm68120_draw_bitmap` returns `ESP_OK` only if `w ≥ 1`, `h ≥ 1`,
`x + w ≤` logical width and `y + h ≤` logical height (sums taken without wrap-around): the
16-bit truncation of `x+w-1` and `y+h-1` then changes nothing, so an empty or out-of-screen
rectangle is never accepted; consequently `w*h ≤` logical width times logical height, the
pixel count and the byte count `2*w*h` fit 32 bits, and the raw write carries exactly
`2*w*h` bytes. -/
theorem draw_bitmap_accepts_only_inner_rectangles (off : OffsetUtility)
    (env : Nat → esp_err_t) (x y w h : Nat) (buf : List Nat) (g : scr_handle_t)
    (hx : x < 65536) (hy : y < 65536) (hw : w < 65536) (hh : h < 65536)
    (hg : size_within_panel g)
    (hret : (lcd_rm68120_draw_bitmap off env x y w h (some buf) g).ret = ESP_OK) :
    1 ≤ w ∧ 1 ≤ h ∧ x + w ≤ g.width ∧ y + h ≤ g.height ∧
    to_uint16 ((x : Int) + (w : Int) - 1) = x + w - 1 ∧
    to_uint16 ((y : Int) + (h : Int) - 1) = y + h - 1 ∧
    w * h ≤ g.width * g.height ∧
    w * h < 2 ^ 32 ∧ 2 * w * h < 2 ^ 32 ∧
    (2 * ((w * h) % 2 ^ 32)) % 2 ^ 32 = 2 * w * h ∧
    TransportOp.write (Buffer.pixels buf) (2 * w * h) ∈
      (lcd_rm68120_draw_bitmap off env x y w h (some buf) g).trace := by
  obtain ⟨gw, gh⟩ := hg
  simp only [RM68120_RESOLUTION_VER] at gw gh
  obtain ⟨hv, hmem⟩ := (draw_bitmap_window_gate off env x y w h buf g).2 hret
  obtain ⟨hiff, hX, hY⟩ := bitmap_window_valid_iff x y w h g hx hy hw hh (by omega) (by omega)
  obtain ⟨w1, h1, xw, yh⟩ := hiff.mp hv
  have hle : w * h ≤ g.width * g.height := Nat.mul_le_mul (by omega) (by omega)
  have hmul : g.width * g.height ≤ 800 * 800 := Nat.mul_le_mul gw gh
  have hbytes : (2 * ((w * h) % 2 ^ 32)) % 2 ^ 32 = 2 * w * h := by
    rw [Nat.mod_eq_of_lt (by omega), Nat.mod_eq_of_lt (by omega), Nat.mul_assoc]
  rw [hbytes] at hmem
  refine ⟨w1, h1, xw, yh, hX w1 xw, hY h1 yh, hle, by omega, ?_, hbytes, hmem⟩
  rw [Nat.mul_assoc]
  omega

/-- Instance of C15: the accepted bitmap 20 x 10 at (460, 790) on the portrait handle ends
exactly at the screen corner. -/
theorem draw_bitmap_accepts_only_inner_rectangles_witness :
    ((460 < 65536 ∧ 790 < 65536 ∧ 20 < 65536 ∧ 10 < 65536) ∧
      size_within_panel portrait_handle ∧
      (lcd_rm68120_draw_bitmap plain_offset all_ok 460 790 20 10 (some []) portrait_handle).ret
        = ESP_OK) ∧
    460 + 20 ≤ portrait_handle.width ∧ 790 + 10 ≤ portrait_handle.height ∧
    2 * 20 * 10 < 2 ^ 32 :=
  ⟨⟨⟨by decide, by decide, by decide, by decide⟩, by decide, by decide⟩,
    (draw_bitmap_accepts_only_inner_rectangles plain_offset all_ok 460 790 20 10 []
      portrait_handle (by decide) (by decide) (by decide) (by decide) (by decide)
      (by decide)).2.2.1,
    (draw_bitmap_accepts_only_inner_rectangles plain_offset all_ok 460 790 20 10 []
      portrait_handle (by decide) (by decide) (by decide) (by decide) (by decide)
      (by decide)).2.2.2.1,
    (draw_bitmap_accepts_only_inner_rectangles plain_offset all_ok 460 790 20 10 []
      portrait_handle (by decide) (by decide) (by decide) (by decide) (by decide)
      (by decide)).2.2.2.2.2.2.2.2.1⟩

end RM68120
